import Mathlib

/-!
Verification model of the tv-tracker task-lifecycle reconciliation engine.

The Go source is embedded shallowly:
* strings are lists of characters (abbrev Str);
* the SQLite store is a record of lists; queries without ORDER BY return
  rows in insertion (rowid) order, modelled as list order;
* SQL LIKE row predicates are embedded by their semantics for the pattern
  shapes the code builds (a literal followed by a percent wildcard is a
  case-insensitive ASCII prefix test, a literal between two percent
  wildcards is a case-insensitive ASCII substring test); GLOB patterns of
  the shapes built in getByShowAndDescriptionGlob are embedded as a
  case-sensitive occurrence bounded on the right by a non-digit or the end;
* machine integers are Nat (TMDB identifiers, season and episode numbers
  are nonnegative; strconv.Atoi overflow is out of the modelled range);
* instants of time are integers counting local calendar days: the code
  only compares date-truncated values and adds whole calendar days, so the
  time-of-day component is irrelevant to every property proved here;
* fallible store and network operations return Except, with failure
  injection supplied through an environment record; a SQL transaction is
  modelled by returning the unchanged store on failure (rollback).
-/

namespace TvTracker

/-- Characters of a Go string; the model works on character lists. -/
abbrev Str := List Char

/-- Embed a Lean string literal into the model representation. -/
def str (s : String) : Str := s.data

/-- ASCII lower-casing of one character, the folding SQLite applies to LIKE operands. -/
def asciiLower (c : Char) : Char :=
  if 'A' ≤ c ∧ c ≤ 'Z' then Char.ofNat (c.toNat + 32) else c

/-- Case-insensitive (ASCII) test that p occurs at the head of s: the row
predicate of a LIKE pattern consisting of the literal p followed by a
percent wildcard. -/
def ciStartsWith : Str → Str → Bool
  | [], _ => true
  | _ :: _, [] => false
  | p :: ps, c :: cs => (asciiLower p == asciiLower c) && ciStartsWith ps cs

/-- Case-insensitive (ASCII) substring test: the row predicate of a LIKE
pattern consisting of the literal p between two percent wildcards. -/
def ciContains (p : Str) : Str → Bool
  | [] => p.isEmpty
  | c :: cs => ciStartsWith p (c :: cs) || ciContains p cs

/-- An occurrence of u at the head of s that is followed by a non-digit
character or by the end of s. -/
def boundedHere (u s : Str) : Bool :=
  u.isPrefixOf s &&
    (match s.drop u.length with
     | [] => true
     | c :: _ => !c.isDigit)

/-- Some occurrence of u in s is bounded on the right by a non-digit
character or by the end of s: the row predicate of the disjunction of the
two GLOB patterns star u nondigit star and star u built in
getByShowAndDescriptionGlob. -/
def hasBoundedOcc (u : Str) : Str → Bool
  | [] => boundedHere u []
  | c :: cs => boundedHere u (c :: cs) || hasBoundedOcc u cs

/-- The decimal digit character of d, for d below ten. -/
def digitChar (d : Nat) : Char := Char.ofNat (48 + d)

/-- Fuel-driven most-significant-first decimal digit expansion. -/
def natDigitsGo : Nat → Nat → Str
  | 0, _ => []
  | f + 1, n =>
      if n < 10 then [digitChar n]
      else natDigitsGo f (n / 10) ++ [digitChar (n % 10)]

/-- Decimal digits of n, most significant first: the output of Go integer
formatting with the d verb for a nonnegative value. -/
def natDigits (n : Nat) : Str := natDigitsGo (n + 1) n

/-- Numeric value of a digit string, as strconv.Atoi computes it for
digit-only input (integer overflow is outside the modelled range). -/
def natOfDigits (ds : Str) : Nat :=
  ds.foldl (fun n c => 10 * n + (c.toNat - 48)) 0

/-- Go fmt %02d applied to a nonnegative value: decimal digits, left-padded
with one zero to width two. -/
def pad2 (n : Nat) : Str :=
  if n < 10 then '0' :: natDigits n else natDigits n

/-- FormatEpisodeID from task_generator.go:
fmt.Sprintf with verb S%02dE%02d applied to season and episode. -/
def FormatEpisodeID (season episode : Nat) : Str :=
  'S' :: (pad2 season ++ 'E' :: pad2 episode)

/-- normalizeEpisodeID from task_repository.go: anchored match against the
pattern S digits E digits; on success, the canonical zero-padded form
together with the parsed season and episode values. -/
def normalizeEpisodeID (input : Str) : Option (Str × Nat × Nat) :=
  match input with
  | [] => none
  | c :: rest =>
    if c = 'S' then
      let d1 := rest.takeWhile Char.isDigit
      match rest.dropWhile Char.isDigit with
      | [] => none
      | e :: d2 =>
        if e = 'E' ∧ d1 ≠ [] ∧ d2 ≠ [] ∧ d2.all Char.isDigit then
          some (FormatEpisodeID (natOfDigits d1) (natOfDigits d2),
                natOfDigits d1, natOfDigits d2)
        else none
    else none

theorem natDigitsGo_fuel_irrel :
    ∀ f f' n, n < f → n < f' → natDigitsGo f n = natDigitsGo f' n := by
  intro f
  induction f with
  | zero => intro f' n h; omega
  | succ f ih =>
    intro f' n hf hf'
    cases f' with
    | zero => omega
    | succ f' =>
      simp only [natDigitsGo]
      by_cases h10 : n < 10
      · simp [h10]
      · have hdiv : n / 10 < n := Nat.div_lt_self (by omega) (by omega)
        simp only [h10, if_false]
        rw [ih f' (n / 10) (by omega) (by omega)]

/-- Unfolding equation for natDigits. -/
theorem natDigits_eq (n : Nat) :
    natDigits n = if n < 10 then [digitChar n]
      else natDigits (n / 10) ++ [digitChar (n % 10)] := by
  by_cases h10 : n < 10
  · rw [if_pos h10]
    simp [natDigits, natDigitsGo, h10]
  · rw [if_neg h10]
    have hdiv : n / 10 < n := Nat.div_lt_self (by omega) (by omega)
    show natDigitsGo (n + 1) n = natDigitsGo (n / 10 + 1) (n / 10) ++ [digitChar (n % 10)]
    rw [natDigitsGo, if_neg h10,
        natDigitsGo_fuel_irrel n (n / 10 + 1) (n / 10) (by omega) (by omega)]

theorem digitChar_toNat {d : Nat} (h : d < 10) : (digitChar d).toNat = 48 + d := by
  interval_cases d <;> decide

theorem digitChar_isDigit {d : Nat} (h : d < 10) : (digitChar d).isDigit = true := by
  interval_cases d <;> decide

theorem natDigits_ne_nil (n : Nat) : natDigits n ≠ [] := by
  rw [natDigits_eq]
  by_cases h : n < 10 <;> simp [h]

theorem natDigits_all_digit (n : Nat) : ∀ c ∈ natDigits n, c.isDigit = true := by
  induction n using Nat.strongRecOn with
  | ind n ih =>
    rw [natDigits_eq]
    by_cases h : n < 10
    · simp only [h, if_true, List.mem_singleton]
      rintro c rfl
      exact digitChar_isDigit h
    · simp only [h, if_false, List.mem_append, List.mem_singleton]
      rintro c (hc | rfl)
      · exact ih (n / 10) (Nat.div_lt_self (by omega) (by omega)) c hc
      · exact digitChar_isDigit (Nat.mod_lt n (by omega))

theorem natOfDigits_append (l1 l2 : Str) :
    natOfDigits (l1 ++ l2) =
      l2.foldl (fun n c => 10 * n + (c.toNat - 48)) (natOfDigits l1) := by
  simp [natOfDigits, List.foldl_append]

theorem natOfDigits_natDigits (n : Nat) : natOfDigits (natDigits n) = n := by
  induction n using Nat.strongRecOn with
  | ind n ih =>
    rw [natDigits_eq]
    by_cases h : n < 10
    · simp only [h, if_true, natOfDigits, List.foldl_cons, List.foldl_nil]
      rw [digitChar_toNat h]
      omega
    · simp only [h, if_false]
      rw [natOfDigits_append]
      rw [ih (n / 10) (Nat.div_lt_self (by omega) (by omega))]
      have hm : n % 10 < 10 := Nat.mod_lt n (by omega)
      simp only [List.foldl_cons, List.foldl_nil]
      rw [digitChar_toNat hm]
      omega

theorem pad2_all_digit (n : Nat) : ∀ c ∈ pad2 n, c.isDigit = true := by
  unfold pad2
  by_cases h : n < 10
  · simp only [h, if_true]
    intro c hc
    rcases List.mem_cons.mp hc with rfl | hc'
    · decide
    · exact natDigits_all_digit n c hc'
  · simp only [h, if_false]
    exact natDigits_all_digit n

theorem pad2_ne_nil (n : Nat) : pad2 n ≠ [] := by
  unfold pad2
  by_cases h : n < 10 <;> simp [h, natDigits_ne_nil]

theorem natOfDigits_pad2 (n : Nat) : natOfDigits (pad2 n) = n := by
  unfold pad2
  by_cases h : n < 10
  · simp only [h, if_true]
    have : natOfDigits ('0' :: natDigits n) = natOfDigits (natDigits n) := by
      simp [natOfDigits]
    rw [this, natOfDigits_natDigits]
  · simp only [h, if_false, natOfDigits_natDigits]

theorem natDigits_length_le {n : Nat} (h : n ≤ 99) : (natDigits n).length ≤ 2 := by
  rw [natDigits_eq]
  by_cases h10 : n < 10
  · simp [h10]
  · have : n / 10 < 10 := by omega
    rw [if_neg h10, natDigits_eq, if_pos this]
    simp

theorem pad2_length {n : Nat} (h : n ≤ 99) : (pad2 n).length = 2 := by
  unfold pad2
  by_cases h10 : n < 10
  · rw [if_pos h10, natDigits_eq, if_pos h10]
    simp
  · rw [if_neg h10, natDigits_eq, if_neg h10]
    have h2 : n / 10 < 10 := by omega
    rw [natDigits_eq, if_pos h2]
    simp

/-- Helper: takeWhile over a run of satisfying characters followed by a
non-satisfying one. -/
theorem takeWhile_run {p : Char → Bool} :
    ∀ (l1 : Str) (a : Char) (l2 : Str), (∀ c ∈ l1, p c = true) → p a = false →
      (l1 ++ a :: l2).takeWhile p = l1 := by
  intro l1
  induction l1 with
  | nil => intro a l2 _ ha; simp [List.takeWhile, ha]
  | cons c cs ih =>
    intro a l2 hall ha
    have hc : p c = true := hall c (by simp)
    have hr := ih a l2 (fun x hx => hall x (by simp [hx])) ha
    simp [List.takeWhile_cons, hc, hr]

/-- Helper: dropWhile over a run of satisfying characters followed by a
non-satisfying one. -/
theorem dropWhile_run {p : Char → Bool} :
    ∀ (l1 : Str) (a : Char) (l2 : Str), (∀ c ∈ l1, p c = true) → p a = false →
      (l1 ++ a :: l2).dropWhile p = a :: l2 := by
  intro l1
  induction l1 with
  | nil => intro a l2 _ ha; simp [List.dropWhile, ha]
  | cons c cs ih =>
    intro a l2 hall ha
    have hc : p c = true := hall c (by simp)
    simp only [List.cons_append, List.dropWhile_cons, hc]
    exact ih a l2 (fun x hx => hall x (by simp [hx])) ha

/-- Round trip: the canonical token produced by FormatEpisodeID parses back
to itself with the original season and episode values. -/
theorem normalize_format (s e : Nat) :
    normalizeEpisodeID (FormatEpisodeID s e) = some (FormatEpisodeID s e, s, e) := by
  have hE : Char.isDigit 'E' = false := by decide
  have hdrop := dropWhile_run (pad2 s) 'E' (pad2 e) (pad2_all_digit s) hE
  have htake := takeWhile_run (pad2 s) 'E' (pad2 e) (pad2_all_digit s) hE
  have h3 : (pad2 e).all Char.isDigit = true := by
    rw [List.all_eq_true]; exact pad2_all_digit e
  have hshape : FormatEpisodeID s e = 'S' :: (pad2 s ++ 'E' :: pad2 e) := rfl
  rw [hshape]
  simp only [normalizeEpisodeID, htake, hdrop, if_pos rfl, natOfDigits_pad2]
  simp only [pad2_ne_nil, h3, ne_eq, not_false_eq_true, and_true, true_and, if_true]
  rw [hshape]

/-- Task categories from models: UPDATE (the spec's NEW_EPISODE) and
ORGANIZE (the spec's SERIES_ENDED). -/
inductive TaskType where
  | update
  | organize
deriving DecidableEq, Repr

/-- A row of the tv_shows table (created/updated timestamps omitted: no
claim reads them). -/
structure TVShow where
  id : Nat
  tmdbID : Nat
  name : Str
  totalSeasons : Nat
  status : Str
  originCountry : Str
  resourceTime : Str
  resourceTimeIsManual : Bool
  isArchived : Bool
deriving DecidableEq, Repr

/-- A row of the tasks table; createdAt counts local calendar days (the
code only ever compares date-truncated values and adds whole days). -/
structure Task where
  id : Nat
  tvShowID : Nat
  taskType : TaskType
  description : Str
  isCompleted : Bool
  createdAt : Int
deriving DecidableEq, Repr

/-- A row of the episodes table (the surrogate rowid is omitted: the
unique key is the tmdbID, season, episode triple). -/
structure EpisodeRecord where
  tmdbID : Nat
  season : Nat
  episode : Nat
  title : Str
  overview : Str
  airDate : Str
deriving DecidableEq, Repr

/-- EpisodeInfo from the TMDB client: one episode pointer inside a cached
document. -/
structure EpisodeInfo where
  airDate : Str
  episodeNumber : Nat
  seasonNumber : Nat
  name : Str
  overview : Str
deriving DecidableEq, Repr

/-- TVDetails from the TMDB client, restricted to the fields the
reconciliation engine reads. -/
structure TVDetails where
  name : Str
  status : Str
  originCountry : List Str
  numberOfSeasons : Nat
  nextEpisodeToAir : Option EpisodeInfo
  lastEpisodeToAir : Option EpisodeInfo
deriving DecidableEq, Repr

/-- The persistent store: the four tables plus the next fresh task rowid
(SQLite row order models insertion order). -/
structure Store where
  shows : List TVShow
  episodes : List EpisodeRecord
  tasks : List Task
  cache : List (Nat × TVDetails)
  nextTaskId : Nat
deriving Repr

/-- Shared shape of getByShowAndDescriptionLike and
getByShowAndDescriptionGlob: the first row (LIMIT 1, rowid order) of tasks
JOIN tv_shows whose show id matches and whose description satisfies the
embedded pattern predicate.  The JOIN makes a task row visible only when
its owning show row exists. -/
def firstTaskWhere (shows : List TVShow) (tasks : List Task) (showID : Nat)
    (p : Str → Bool) : Option Task :=
  if shows.any (fun s => s.id == showID) then
    tasks.find? (fun t => t.tvShowID == showID && p t.description)
  else none

/-- GetByShowAndEpisode from task_repository.go.  On a normalizable token:
first the stable prefix pattern (canonical token, pipe, percent), then the
legacy padded substring pattern, then the two GLOB patterns for the
unpadded form with a digit boundary; on a non-normalizable token, the
legacy raw substring pattern. -/
def GetByShowAndEpisode (shows : List TVShow) (tasks : List Task)
    (showID : Nat) (episode : Str) : Option Task :=
  match normalizeEpisodeID episode with
  | some (normalized, season, epNum) =>
    match firstTaskWhere shows tasks showID
        (fun d => ciStartsWith (normalized ++ ['|']) d) with
    | some t => some t
    | none =>
      match firstTaskWhere shows tasks showID
          (fun d => ciContains normalized d) with
      | some t => some t
      | none =>
        firstTaskWhere shows tasks showID
          (fun d => hasBoundedOcc ('S' :: (natDigits season ++ 'E' :: natDigits epNum)) d)
  | none =>
    firstTaskWhere shows tasks showID (fun d => ciContains episode d)

/-- ExistsOrganizeTask from task_repository.go: positive row count over
tasks with the given show id and the ORGANIZE type — note there is no
filter on the is_completed column. -/
def ExistsOrganizeTask (tasks : List Task) (showID : Nat) : Bool :=
  tasks.any (fun t => t.tvShowID == showID && t.taskType == TaskType.organize)

/-- C8 counterexample: at season 100 the format verb widens beyond two
digits, so the token has seven characters, not six. -/
theorem C8_counterexample : (FormatEpisodeID 100 0).length ≠ 6 := by decide

/-- C8 (amended): for seasons and episodes in 0..99 the canonical token
is exactly six characters — the letter S, two zero-padded digits encoding
the season, the letter E, two zero-padded digits encoding the episode.
For values of 100 and beyond the digit groups widen. -/
theorem C8_token_shape (s e : Nat) (hs : s ≤ 99) (he : e ≤ 99) :
    (FormatEpisodeID s e).length = 6 ∧
    ∃ a b c d : Char, a.isDigit = true ∧ b.isDigit = true ∧
      c.isDigit = true ∧ d.isDigit = true ∧
      FormatEpisodeID s e = ['S', a, b, 'E', c, d] ∧
      natOfDigits [a, b] = s ∧ natOfDigits [c, d] = e := by
  obtain ⟨a, b, hab⟩ := List.length_eq_two.mp (pad2_length hs)
  obtain ⟨c, d, hcd⟩ := List.length_eq_two.mp (pad2_length he)
  have hshape : FormatEpisodeID s e = ['S', a, b, 'E', c, d] := by
    show 'S' :: (pad2 s ++ 'E' :: pad2 e) = _
    rw [hab, hcd]
    rfl
  refine ⟨by rw [hshape]; rfl, a, b, c, d, ?_, ?_, ?_, ?_, hshape, ?_, ?_⟩
  · exact pad2_all_digit s a (by rw [hab]; simp)
  · exact pad2_all_digit s b (by rw [hab]; simp)
  · exact pad2_all_digit e c (by rw [hcd]; simp)
  · exact pad2_all_digit e d (by rw [hcd]; simp)
  · rw [← hab]; exact natOfDigits_pad2 s
  · rw [← hcd]; exact natOfDigits_pad2 e

/-- C8 witness: the amended shape theorem at season 3, episode 7. -/
theorem C8_token_shape_witness :
    (FormatEpisodeID 3 7).length = 6 ∧
    ∃ a b c d : Char, a.isDigit = true ∧ b.isDigit = true ∧
      c.isDigit = true ∧ d.isDigit = true ∧
      FormatEpisodeID 3 7 = ['S', a, b, 'E', c, d] ∧
      natOfDigits [a, b] = 3 ∧ natOfDigits [c, d] = 7 :=
  C8_token_shape 3 7 (by decide) (by decide)

/-- Any spelling S digits E digits normalizes to the canonical token of
the values its digit groups denote. -/
theorem normalize_spelling (d1 d2 : Str) (h1 : d1 ≠ []) (h2 : d2 ≠ [])
    (h1d : ∀ c ∈ d1, c.isDigit = true) (h2d : ∀ c ∈ d2, c.isDigit = true) :
    normalizeEpisodeID ('S' :: (d1 ++ 'E' :: d2)) =
      some (FormatEpisodeID (natOfDigits d1) (natOfDigits d2),
            natOfDigits d1, natOfDigits d2) := by
  have hE : Char.isDigit 'E' = false := by decide
  have hdrop := dropWhile_run d1 'E' d2 h1d hE
  have htake := takeWhile_run d1 'E' d2 h1d hE
  have h3 : d2.all Char.isDigit = true := by rw [List.all_eq_true]; exact h2d
  simp only [normalizeEpisodeID, htake, hdrop, if_pos rfl]
  simp only [h1, h2, h3, ne_eq, not_false_eq_true, and_true, true_and, if_true]

/-- C10: all spellings of the same season/episode pair with arbitrary
leading zeros normalize to the same canonical six-character token with
ok, and GetByShowAndEpisode therefore performs the identical search for
every equivalent spelling. -/
theorem C10_normalize_canonical (s e : Nat) (hs : s ≤ 99) (he : e ≤ 99)
    (d1 d2 : Str) (h1 : d1 ≠ []) (h2 : d2 ≠ [])
    (h1d : ∀ c ∈ d1, c.isDigit = true) (h2d : ∀ c ∈ d2, c.isDigit = true)
    (hv1 : natOfDigits d1 = s) (hv2 : natOfDigits d2 = e) :
    normalizeEpisodeID ('S' :: (d1 ++ 'E' :: d2)) = some (FormatEpisodeID s e, s, e) ∧
    ∀ shows tasks showID,
      GetByShowAndEpisode shows tasks showID ('S' :: (d1 ++ 'E' :: d2)) =
        GetByShowAndEpisode shows tasks showID (FormatEpisodeID s e) := by
  have hn : normalizeEpisodeID ('S' :: (d1 ++ 'E' :: d2)) =
      some (FormatEpisodeID s e, s, e) := by
    rw [normalize_spelling d1 d2 h1 h2 h1d h2d, hv1, hv2]
  refine ⟨hn, fun shows tasks showID => ?_⟩
  unfold GetByShowAndEpisode
  rw [hn, normalize_format]

/-- C10 witness: the spellings S001E1 and S01E01 of season 1 episode 1
agree, at a store with one legacy task for show 1. -/
theorem C10_normalize_canonical_witness :
    normalizeEpisodeID (str "S001E1") = some (FormatEpisodeID 1 1, 1, 1) ∧
    ∀ shows tasks showID,
      GetByShowAndEpisode shows tasks showID (str "S001E1") =
        GetByShowAndEpisode shows tasks showID (FormatEpisodeID 1 1) :=
  C10_normalize_canonical 1 1 (by decide) (by decide)
    (str "001") (str "1") (by decide) (by decide)
    (by decide) (by decide) (by decide) (by decide)

/-- Clock and failure-injection environment for the lifecycle service
(TaskBoardService).  now is the local day of timeutil.Now; a false flag
makes the corresponding store statement fail, and the surrounding
transaction rolls back. -/
structure LifecycleEnv where
  now : Int
  beginOk : Bool
  completeOk : Bool
  archiveOk : Bool
  createOk : Bool
  deleteOk : Bool
  commitOk : Bool
deriving DecidableEq, Repr

/-- Lifecycle service errors: the task-not-found error versus a store
failure. -/
inductive SvcError where
  | notFound
  | storeFail
deriving DecidableEq, Repr

/-- TaskRepository.GetByID: the task row joined with its owning show row;
the JOIN hides a task whose owning show row is missing. -/
def getTaskByID (store : Store) (taskID : Nat) : Option Task :=
  match store.tasks.find? (fun t => t.id == taskID) with
  | none => none
  | some t =>
    if store.shows.any (fun s => s.id == t.tvShowID) then some t else none

/-- TaskRepository.Complete inside the transaction: set is_completed to
true on every row with the given id. -/
def completeTaskRow (tasks : List Task) (taskID : Nat) : List Task :=
  tasks.map (fun t => if t.id == taskID then { t with isCompleted := true } else t)

/-- TVShowRepository.Archive inside the transaction: set is_archived to
true on every row with the given id. -/
def archiveShowRow (shows : List TVShow) (showID : Nat) : List TVShow :=
  shows.map (fun s => if s.id == showID then { s with isArchived := true } else s)

/-- TaskBoardService.CompleteTask: look the task up; inside one
transaction mark it completed and, when its type is ORGANIZE, archive the
owning show.  A failure at any point rolls the entire unit back, which the
embedding expresses by returning an error and no store: the caller's state
is the unchanged input store. -/
def CompleteTask (env : LifecycleEnv) (store : Store) (taskID : Nat) :
    Except SvcError Store :=
  match getTaskByID store taskID with
  | none => .error .notFound
  | some task =>
    if !env.beginOk then .error .storeFail
    else if !env.completeOk then .error .storeFail
    else
      let s1 : Store := { store with tasks := completeTaskRow store.tasks taskID }
      if task.taskType == TaskType.organize then
        if !env.archiveOk then .error .storeFail
        else if !env.commitOk then .error .storeFail
        else .ok { s1 with shows := archiveShowRow s1.shows task.tvShowID }
      else if !env.commitOk then .error .storeFail
      else .ok s1

/-- TaskBoardService.PostponeTask: look the task up; inside one
transaction create a fresh incomplete copy whose creation instant is the
current clock value plus one calendar day, then delete the original row.
A failure rolls the unit back as in CompleteTask. -/
def PostponeTask (env : LifecycleEnv) (store : Store) (taskID : Nat) :
    Except SvcError Store :=
  match getTaskByID store taskID with
  | none => .error .notFound
  | some task =>
    if !env.beginOk then .error .storeFail
    else
      let newTask : Task :=
        { id := store.nextTaskId, tvShowID := task.tvShowID,
          taskType := task.taskType, description := task.description,
          isCompleted := false, createdAt := env.now + 1 }
      if !env.createOk then .error .storeFail
      else if !env.deleteOk then .error .storeFail
      else if !env.commitOk then .error .storeFail
      else .ok { store with
        tasks := (store.tasks ++ [newTask]).filter (fun t => !(t.id == taskID)),
        nextTaskId := store.nextTaskId + 1 }

/-- C3: completing a reminder fails with NotFound exactly when the lookup
finds no reminder; on an ORGANIZE (SERIES_ENDED) reminder every
successful call leaves the reminder completed AND the owning show
archived — never one without the other — and when no injected failure
occurs the call does succeed.  A failed call returns an error and, by the
transaction embedding, leaves the caller with the unchanged input store. -/
theorem C3_complete_cascade (env : LifecycleEnv) (store : Store) (taskID : Nat) :
    (getTaskByID store taskID = none →
      CompleteTask env store taskID = .error .notFound) ∧
    (∀ task, getTaskByID store taskID = some task →
      task.taskType = TaskType.organize →
      (∀ s', CompleteTask env store taskID = .ok s' →
        (∀ t ∈ s'.tasks, t.id = taskID → t.isCompleted = true) ∧
        (∀ s ∈ s'.shows, s.id = task.tvShowID → s.isArchived = true)) ∧
      (env.beginOk = true → env.completeOk = true → env.archiveOk = true →
        env.commitOk = true → ∃ s', CompleteTask env store taskID = .ok s')) := by
  constructor
  · intro hnone
    unfold CompleteTask
    rw [hnone]
  · intro task htask horg
    constructor
    · intro s' hok
      unfold CompleteTask at hok
      rw [htask] at hok
      by_cases hb : env.beginOk
      · by_cases hc : env.completeOk
        · simp only [hb, hc, Bool.not_true, Bool.false_eq_true, if_false] at hok
          rw [horg] at hok
          simp only [beq_self_eq_true, if_true] at hok
          by_cases ha : env.archiveOk
          · by_cases hm : env.commitOk
            · simp only [ha, hm, Bool.not_true, Bool.false_eq_true, if_false] at hok
              cases hok
              constructor
              · intro t ht hid
                simp only [completeTaskRow, List.mem_map] at ht
                obtain ⟨u, _, hu⟩ := ht
                by_cases he : u.id = taskID
                · rw [if_pos (by simp [he])] at hu
                  rw [← hu]
                · rw [if_neg (by simp [he])] at hu
                  rw [← hu] at hid
                  exact absurd hid he
              · intro s hs hid
                simp only [archiveShowRow, List.mem_map] at hs
                obtain ⟨u, _, hu⟩ := hs
                by_cases he : u.id = task.tvShowID
                · rw [if_pos (by simp [he])] at hu
                  rw [← hu]
                · rw [if_neg (by simp [he])] at hu
                  rw [← hu] at hid
                  exact absurd hid he
            · simp [hb, hc, ha, hm] at hok
          · simp [hb, hc, ha] at hok
        · simp [hb, hc] at hok
      · simp [hb] at hok
    · intro hb hc ha hm
      unfold CompleteTask
      rw [htask]
      simp only [hb, hc, ha, hm, Bool.not_true, Bool.false_eq_true, if_false]
      rw [horg]
      simp only [beq_self_eq_true, if_true]
      exact ⟨_, rfl⟩

/-- C3 witness: the cascade theorem applied to a store holding one show
(id 2) and one incomplete ORGANIZE reminder (id 9) with every store
operation succeeding: the call succeeds, the reminder ends completed and
the show ends archived. -/
theorem C3_complete_cascade_witness :
    ∃ s', CompleteTask
        { now := 0, beginOk := true, completeOk := true, archiveOk := true,
          createOk := true, deleteOk := true, commitOk := true }
        { shows := [{ id := 2, tmdbID := 7, name := str "A", totalSeasons := 1,
                      status := str "Ended", originCountry := str "US",
                      resourceTime := str "18:00", resourceTimeIsManual := false,
                      isArchived := false }],
          episodes := [],
          tasks := [{ id := 9, tvShowID := 2, taskType := TaskType.organize,
                      description := str "剧集已完结，请整理归档本地文件",
                      isCompleted := false, createdAt := 0 }],
          cache := [], nextTaskId := 10 } 9 = .ok s' ∧
      (∀ t ∈ s'.tasks, t.id = 9 → t.isCompleted = true) ∧
      (∀ s ∈ s'.shows, s.id = 2 → s.isArchived = true) := by
  have h := C3_complete_cascade
    { now := 0, beginOk := true, completeOk := true, archiveOk := true,
      createOk := true, deleteOk := true, commitOk := true }
    { shows := [{ id := 2, tmdbID := 7, name := str "A", totalSeasons := 1,
                  status := str "Ended", originCountry := str "US",
                  resourceTime := str "18:00", resourceTimeIsManual := false,
                  isArchived := false }],
      episodes := [],
      tasks := [{ id := 9, tvShowID := 2, taskType := TaskType.organize,
                  description := str "剧集已完结，请整理归档本地文件",
                  isCompleted := false, createdAt := 0 }],
      cache := [], nextTaskId := 10 } 9
  obtain ⟨s', hs'⟩ := (h.2 _ rfl rfl).2 rfl rfl rfl rfl
  exact ⟨s', hs', (h.2 _ rfl rfl).1 s' hs'⟩

/-- C4 (code bug): the code computes the postponed reminder's creation
instant from the current clock plus one day, not from the original
reminder's creation instant plus one day as the repository documentation
and the spec state.  A reminder created on day 0 and postponed on day 5
reappears with creation day 6; the documented behavior requires day 1. -/
theorem C4_postpone_anchors_to_now :
    (PostponeTask
        { now := 5, beginOk := true, completeOk := true, archiveOk := true,
          createOk := true, deleteOk := true, commitOk := true }
        { shows := [{ id := 2, tmdbID := 7, name := str "A", totalSeasons := 1,
                      status := str "Returning Series", originCountry := str "US",
                      resourceTime := str "18:00", resourceTimeIsManual := false,
                      isArchived := false }],
          episodes := [],
          tasks := [{ id := 9, tvShowID := 2, taskType := TaskType.update,
                      description := str "S01E01|新剧集更新",
                      isCompleted := false, createdAt := 0 }],
          cache := [], nextTaskId := 10 } 9).map
      (fun s' => s'.tasks.map Task.createdAt) = .ok [6] ∧ (6 : Int) ≠ 0 + 1 := by
  constructor
  · rfl
  · decide

theorem ciStartsWith_append_left {p q s : Str}
    (h : ciStartsWith (p ++ q) s = true) : ciStartsWith p s = true := by
  induction p generalizing s with
  | nil => rfl
  | cons a ps ih =>
    cases s with
    | nil => simp [ciStartsWith] at h
    | cons c cs =>
      simp only [List.cons_append, ciStartsWith, Bool.and_eq_true] at h ⊢
      exact ⟨h.1, ih h.2⟩

theorem ciStartsWith_ciContains {p s : Str}
    (h : ciStartsWith p s = true) : ciContains p s = true := by
  cases s with
  | nil =>
    cases p with
    | nil => rfl
    | cons a ps => simp [ciStartsWith] at h
  | cons c cs =>
    simp only [ciContains, Bool.or_eq_true]
    exact Or.inl h

/-- A LIMIT 1 query returns no row exactly when no row of the show
satisfies the pattern predicate. -/
theorem firstTaskWhere_none {shows : List TVShow} {tasks : List Task}
    {showID : Nat} {p : Str → Bool}
    (h : ∀ t ∈ tasks, t.tvShowID = showID → p t.description = false) :
    firstTaskWhere shows tasks showID p = none := by
  unfold firstTaskWhere
  by_cases hs : shows.any (fun s => s.id == showID)
  · rw [if_pos hs, List.find?_eq_none]
    intro t ht
    by_cases hid : t.tvShowID = showID
    · simp [hid, h t ht hid]
    · simp [hid]
  · rw [if_neg hs]

/-- C2: a lookup for the token S01E10 returns nothing from a show whose
reminders do not carry S01E10 (neither the padded form as a
case-insensitive substring nor the unpadded form S1E10 with a digit
boundary) — in particular it never returns a reminder carrying only
S01E01; and symmetrically a lookup for S01E01 returns nothing when no
reminder carries S01E01 in either form, even when descriptions carry the
unpadded S1E10, whose text contains S1E1 as a plain substring. -/
theorem C2_no_cross_match (shows : List TVShow) (tasks : List Task) (showID : Nat) :
    ((∀ t ∈ tasks, t.tvShowID = showID →
        ciContains (str "S01E10") t.description = false ∧
        hasBoundedOcc (str "S1E10") t.description = false) →
      GetByShowAndEpisode shows tasks showID (str "S01E10") = none) ∧
    ((∀ t ∈ tasks, t.tvShowID = showID →
        ciContains (str "S01E01") t.description = false ∧
        hasBoundedOcc (str "S1E1") t.description = false) →
      GetByShowAndEpisode shows tasks showID (str "S01E01") = none) := by
  constructor
  · intro h
    have hn : normalizeEpisodeID (str "S01E10") = some (str "S01E10", 1, 10) := by decide
    unfold GetByShowAndEpisode
    rw [hn]
    have h1 : firstTaskWhere shows tasks showID
        (fun d => ciStartsWith (str "S01E10" ++ ['|']) d) = none := by
      apply firstTaskWhere_none
      intro t ht hid
      cases hb : ciStartsWith (str "S01E10" ++ ['|']) t.description
      · rfl
      · have := ciStartsWith_ciContains (ciStartsWith_append_left hb)
        rw [(h t ht hid).1] at this
        exact absurd this (by simp)
    have h2 : firstTaskWhere shows tasks showID
        (fun d => ciContains (str "S01E10") d) = none :=
      firstTaskWhere_none (fun t ht hid => (h t ht hid).1)
    have h3 : firstTaskWhere shows tasks showID
        (fun d => hasBoundedOcc ('S' :: (natDigits 1 ++ 'E' :: natDigits 10)) d) = none := by
      have hu : ('S' :: (natDigits 1 ++ 'E' :: natDigits 10)) = str "S1E10" := by decide
      rw [hu]
      exact firstTaskWhere_none (fun t ht hid => (h t ht hid).2)
    simp only [h1, h2, h3]
  · intro h
    have hn : normalizeEpisodeID (str "S01E01") = some (str "S01E01", 1, 1) := by decide
    unfold GetByShowAndEpisode
    rw [hn]
    have h1 : firstTaskWhere shows tasks showID
        (fun d => ciStartsWith (str "S01E01" ++ ['|']) d) = none := by
      apply firstTaskWhere_none
      intro t ht hid
      cases hb : ciStartsWith (str "S01E01" ++ ['|']) t.description
      · rfl
      · have := ciStartsWith_ciContains (ciStartsWith_append_left hb)
        rw [(h t ht hid).1] at this
        exact absurd this (by simp)
    have h2 : firstTaskWhere shows tasks showID
        (fun d => ciContains (str "S01E01") d) = none :=
      firstTaskWhere_none (fun t ht hid => (h t ht hid).1)
    have h3 : firstTaskWhere shows tasks showID
        (fun d => hasBoundedOcc ('S' :: (natDigits 1 ++ 'E' :: natDigits 1)) d) = none := by
      have hu : ('S' :: (natDigits 1 ++ 'E' :: natDigits 1)) = str "S1E1" := by decide
      rw [hu]
      exact firstTaskWhere_none (fun t ht hid => (h t ht hid).2)
    simp only [h1, h2, h3]

/-- C2 witness: with only unpadded legacy descriptions stored, a lookup
for S01E10 does not return the reminder carrying S1E1, and a lookup for
S01E01 does not return the reminder carrying S1E10. -/
theorem C2_no_cross_match_witness :
    GetByShowAndEpisode
      [{ id := 1, tmdbID := 7, name := str "A", totalSeasons := 1,
         status := str "Returning Series", originCountry := str "US",
         resourceTime := str "18:00", resourceTimeIsManual := false,
         isArchived := false }]
      [{ id := 4, tvShowID := 1, taskType := TaskType.update,
         description := str "新剧集更新: S1E1 已更新", isCompleted := false,
         createdAt := 0 }] 1 (str "S01E10") = none ∧
    GetByShowAndEpisode
      [{ id := 1, tmdbID := 7, name := str "A", totalSeasons := 1,
         status := str "Returning Series", originCountry := str "US",
         resourceTime := str "18:00", resourceTimeIsManual := false,
         isArchived := false }]
      [{ id := 5, tvShowID := 1, taskType := TaskType.update,
         description := str "新剧集更新: S1E10 已更新", isCompleted := false,
         createdAt := 0 }] 1 (str "S01E01") = none :=
  ⟨(C2_no_cross_match _ _ 1).1 (by decide), (C2_no_cross_match _ _ 1).2 (by decide)⟩

/-- Network calls the engine can make against the TMDB client. -/
inductive NetCall where
  | fetchDocument (tmdbID : Nat)
  | fetchEpisodes (tmdbID : Nat) (season : Nat)
deriving DecidableEq, Repr

/-- Clock, network, and failure-injection environment for the
reconciliation engine (TaskGenerator).  today is the date-truncated value
of timeutil.Now; fetchEpisodes is the TMDB client operation
GetSeasonEpisodes, which may fail; a false flag makes the corresponding
store operation fail.  Read failures of the duplicate-existence queries
are not injected: the claims only concern the write failures the spec
names. -/
structure SyncEnv where
  today : Int
  fetchEpisodes : Nat → Nat → Except Unit (List EpisodeInfo)
  getCachedOk : Nat → Bool
  updateShowOk : Nat → Bool
  upsertOk : Nat → Nat → Nat → Bool
  createTaskOk : Nat → Str → Bool

/-- Aggregate counters returned by SyncAll. -/
structure SyncResult where
  updateTasks : Nat
  organizeTasks : Nat
  errors : Nat
deriving DecidableEq, Repr

/-- Whitespace for the TrimSpace model (ASCII; the region codes involved
never carry wider Unicode spacing). -/
def isSpaceChar (c : Char) : Bool :=
  c == ' ' || c == '\t' || c == '\n' || c == '\r'

/-- strings.TrimSpace restricted to ASCII whitespace. -/
def trimSpace (s : Str) : Str :=
  ((s.dropWhile isSpaceChar).reverse.dropWhile isSpaceChar).reverse

/-- ASCII upper-casing of one character, the effect of strings.ToUpper on
region codes. -/
def asciiUpper (c : Char) : Char :=
  if 'a' ≤ c ∧ c ≤ 'z' then Char.ofNat (c.toNat - 32) else c

/-- InferResourceTime from subscription.go: the fixed region-to-label
lookup with a catch-all default. -/
def InferResourceTime (originCountry : Str) : Str :=
  let country := (trimSpace originCountry).map asciiUpper
  if country = str "US" ∨ country = str "UK" ∨ country = str "CA" ∨ country = str "GB" then
    str "18:00"
  else if country = str "CN" ∨ country = str "TW" then str "20:00"
  else if country = str "JP" ∨ country = str "KR" then str "23:00"
  else str "待定"

/-- Parse a YYYY-MM-DD string and truncate to the calendar day, as
time.ParseInLocation with layout 2006-01-02 followed by day truncation in
the same zone as now.  The result is a day index that strictly orders
calendar dates (per-month day-range validation beyond 1..31 is not
modelled: no claim depends on it). -/
def parseAirDate (s : Str) : Option Int :=
  match s with
  | [y1, y2, y3, y4, g1, m1, m2, g2, d1, d2] =>
    if g1 = '-' ∧ g2 = '-' ∧ [y1, y2, y3, y4, m1, m2, d1, d2].all Char.isDigit then
      let y := natOfDigits [y1, y2, y3, y4]
      let m := natOfDigits [m1, m2]
      let d := natOfDigits [d1, d2]
      if 1 ≤ m ∧ m ≤ 12 ∧ 1 ≤ d ∧ d ≤ 31 then
        some ((y : Int) * 372 + ((m : Int) - 1) * 31 + ((d : Int) - 1))
      else none
    else none
  | _ => none

/-- The pure field updates of updateShowData before persisting: mirror
name, season count and status; on an origin-region change re-derive the
availability label unless it was set manually. -/
def applyShowData (sh : TVShow) (d : TVDetails) : TVShow :=
  let s1 : TVShow :=
    { sh with
      name := d.name, totalSeasons := d.numberOfSeasons, status := d.status }
  match d.originCountry with
  | [] => s1
  | oc :: _ =>
    if s1.originCountry ≠ oc then
      let s2 : TVShow := { s1 with originCountry := oc }
      if !s2.resourceTimeIsManual then { s2 with resourceTime := InferResourceTime oc }
      else s2
    else s1

/-- updateShowData from task_generator.go: compute the mirrored fields of
the snapshot row and persist them through TVShowRepository.Update, an
UPDATE by show id. -/
def updateShowData (env : SyncEnv) (store : Store) (sh : TVShow) (d : TVDetails) :
    Except Unit Store :=
  if env.updateShowOk sh.id then
    .ok { store with shows := store.shows.map (fun s =>
      if s.id == sh.id then applyShowData sh d else s) }
  else .error ()

/-- EpisodeRepository.Upsert: insert, or update title, overview and air
date in place, on the (tmdbID, season, episode) key. -/
def upsertEpisode (eps : List EpisodeRecord) (e : EpisodeRecord) : List EpisodeRecord :=
  if eps.any (fun x => x.tmdbID == e.tmdbID && x.season == e.season && x.episode == e.episode) then
    eps.map (fun x =>
      if x.tmdbID == e.tmdbID && x.season == e.season && x.episode == e.episode then
        { x with title := e.title, overview := e.overview, airDate := e.airDate }
      else x)
  else eps ++ [e]

/-- The upsert loop of syncSeasonEpisodes: each upsert is its own
statement, so on a failure the earlier upserts persist and the loop stops
with an error. -/
def upsertEpisodes (env : SyncEnv) (store : Store) (tmdbID : Nat) :
    List EpisodeInfo → Store × Bool
  | [] => (store, true)
  | ep :: rest =>
    if env.upsertOk tmdbID ep.seasonNumber ep.episodeNumber then
      upsertEpisodes env
        { store with
          episodes := upsertEpisode store.episodes
            { tmdbID := tmdbID, season := ep.seasonNumber, episode := ep.episodeNumber,
              title := ep.name, overview := ep.overview, airDate := ep.airDate } }
        tmdbID rest
    else (store, false)

/-- syncSeasonEpisodes from task_generator.go: one GetSeasonEpisodes
network call against the TMDB client, then the per-episode upserts.
Returns the store, whether the whole sync succeeded, and the network call
that was made. -/
def syncSeasonEpisodes (env : SyncEnv) (store : Store) (tmdbID seasonNumber : Nat) :
    Store × Bool × List NetCall :=
  match env.fetchEpisodes tmdbID seasonNumber with
  | .error _ => (store, false, [NetCall.fetchEpisodes tmdbID seasonNumber])
  | .ok eps =>
    let r := upsertEpisodes env store tmdbID eps
    (r.1, r.2, [NetCall.fetchEpisodes tmdbID seasonNumber])

/-- The token-pipe description of a new UPDATE task, as fmt.Sprintf builds
it in createUpdateTaskIfNeeded. -/
def updateTaskDescription (episodeID : Str) (name : Str) : Str :=
  episodeID ++ str "|新剧集更新: " ++ episodeID ++ str " - " ++ name

/-- Final step of createUpdateTaskIfNeeded once every guard has passed:
insert the UPDATE task with the stable token-pipe description. -/
def createUpdateTaskInsert (env : SyncEnv) (store : Store) (sh : TVShow)
    (ep : EpisodeInfo) : Except Unit (Option Task × Store) :=
  let d := updateTaskDescription (FormatEpisodeID ep.seasonNumber ep.episodeNumber) ep.name
  if env.createTaskOk sh.id d then
    let t : Task :=
      { id := store.nextTaskId, tvShowID := sh.id,
        taskType := TaskType.update, description := d,
        isCompleted := false, createdAt := env.today }
    .ok (some t,
      { store with
        tasks := store.tasks ++ [t], nextTaskId := store.nextTaskId + 1 })
  else .error ()

/-- Duplicate guard of createUpdateTaskIfNeeded: consult
GetByShowAndEpisode for the canonical token and create only when no match
exists. -/
def createUpdateTaskGuarded (env : SyncEnv) (store : Store) (sh : TVShow)
    (ep : EpisodeInfo) : Except Unit (Option Task × Store) :=
  match GetByShowAndEpisode store.shows store.tasks sh.id
      (FormatEpisodeID ep.seasonNumber ep.episodeNumber) with
  | some _ => .ok (none, store)
  | none => createUpdateTaskInsert env store sh ep

/-- Date guard of createUpdateTaskIfNeeded: skip an episode whose air day
is strictly after today. -/
def createUpdateTaskDue (env : SyncEnv) (store : Store) (sh : TVShow)
    (ep : EpisodeInfo) (day : Int) : Except Unit (Option Task × Store) :=
  if env.today < day then .ok (none, store)
  else createUpdateTaskGuarded env store sh ep

/-- createUpdateTaskIfNeeded from task_generator.go: skip an empty air
date; fail on an unparseable one; then the date guard, the duplicate
guard, and the insert. -/
def createUpdateTaskIfNeeded (env : SyncEnv) (store : Store) (sh : TVShow)
    (ep : EpisodeInfo) : Except Unit (Option Task × Store) :=
  if ep.airDate = [] then .ok (none, store)
  else
    match parseAirDate ep.airDate with
    | none => .error ()
    | some day => createUpdateTaskDue env store sh ep day

/-- Tail of checkEpisodeUpdate: the last-episode pointer check. -/
def checkEpisodeLast (env : SyncEnv) (store : Store) (sh : TVShow) (d : TVDetails) :
    Except Unit (Option Task × Store) :=
  match d.lastEpisodeToAir with
  | some ep2 => createUpdateTaskIfNeeded env store sh ep2
  | none => .ok (none, store)

/-- Head of checkEpisodeUpdate when a next-episode pointer exists: an
error aborts, a created task returns, and otherwise the last-episode
pointer is checked against the store the first check produced. -/
def checkEpisodeNext (env : SyncEnv) (store : Store) (sh : TVShow) (d : TVDetails)
    (ep : EpisodeInfo) : Except Unit (Option Task × Store) :=
  match createUpdateTaskIfNeeded env store sh ep with
  | .error e => .error e
  | .ok (some t, store') => .ok (some t, store')
  | .ok (none, store') => checkEpisodeLast env store' sh d

/-- checkEpisodeUpdate from task_generator.go: try the next-episode
pointer, then the last-episode pointer; the first created task wins and
an error aborts this item's check. -/
def checkEpisodeUpdate (env : SyncEnv) (store : Store) (sh : TVShow) (d : TVDetails) :
    Except Unit (Option Task × Store) :=
  match d.nextEpisodeToAir with
  | some ep => checkEpisodeNext env store sh d ep
  | none => checkEpisodeLast env store sh d

/-- checkShowEnded from task_generator.go: only for status Ended or
Canceled, and only when ExistsOrganizeTask reports no ORGANIZE row at
all, create the ORGANIZE task. -/
def checkShowEnded (env : SyncEnv) (store : Store) (sh : TVShow) (d : TVDetails) :
    Except Unit (Option Task × Store) :=
  if d.status ≠ str "Ended" ∧ d.status ≠ str "Canceled" then .ok (none, store)
  else if ExistsOrganizeTask store.tasks sh.id then .ok (none, store)
  else
    let desc := str "剧集已完结，请整理归档本地文件"
    if env.createTaskOk sh.id desc then
      let t : Task :=
        { id := store.nextTaskId, tvShowID := sh.id,
          taskType := TaskType.organize, description := desc,
          isCompleted := false, createdAt := env.today }
      .ok (some t,
        { store with
          tasks := store.tasks ++ [t], nextTaskId := store.nextTaskId + 1 })
    else .error ()

/-- TMDBCacheService.GetCached: read the single cache row and decode it; a
read or decode failure is injected through getCachedOk; a missing row is
the distinct not-cached outcome. -/
def getCached (env : SyncEnv) (store : Store) (tmdbID : Nat) :
    Except Unit (Option TVDetails) :=
  if env.getCachedOk tmdbID then
    .ok ((store.cache.find? (fun c => c.1 == tmdbID)).map (fun c => c.2))
  else .error ()

/-- Stage of the SyncAll loop body: mirrored-attribute update; an error is
counted and the item continues with the unchanged store. -/
def afterUpdate (env : SyncEnv) (res : SyncResult) (store : Store) (sh : TVShow)
    (d : TVDetails) : SyncResult × Store :=
  match updateShowData env store sh d with
  | .error _ => ({ res with errors := res.errors + 1 }, store)
  | .ok store' => (res, store')

/-- Stage of the SyncAll loop body: episode sync, run only when the cached
document reports a positive season count; its failure is logged, not
counted, and the item continues. -/
def afterSeasonSync (env : SyncEnv) (store : Store) (calls : List NetCall)
    (sh : TVShow) (d : TVDetails) : Store × List NetCall :=
  if 0 < d.numberOfSeasons then
    let r := syncSeasonEpisodes env store sh.tmdbID d.numberOfSeasons
    (r.1, calls ++ r.2.2)
  else (store, calls)

/-- Stage of the SyncAll loop body: the episode-update check; an error is
counted, a created task bumps the UPDATE counter. -/
def afterEpisodeCheck (env : SyncEnv) (res : SyncResult) (store : Store)
    (sh : TVShow) (d : TVDetails) : SyncResult × Store :=
  match checkEpisodeUpdate env store sh d with
  | .error _ => ({ res with errors := res.errors + 1 }, store)
  | .ok (some _, store') => ({ res with updateTasks := res.updateTasks + 1 }, store')
  | .ok (none, store') => (res, store')

/-- Stage of the SyncAll loop body: the show-ended check; an error is
counted, a created task bumps the ORGANIZE counter. -/
def afterEndedCheck (env : SyncEnv) (res : SyncResult) (store : Store)
    (sh : TVShow) (d : TVDetails) : SyncResult × Store :=
  match checkShowEnded env store sh d with
  | .error _ => ({ res with errors := res.errors + 1 }, store)
  | .ok (some _, store') => ({ res with organizeTasks := res.organizeTasks + 1 }, store')
  | .ok (none, store') => (res, store')

/-- The body of the SyncAll loop for one element of the active-show
snapshot: cache read (error counted, item skipped; missing cache, item
skipped silently), then the four stages in the source's order. -/
def syncOneShow (env : SyncEnv) (acc : SyncResult × Store × List NetCall)
    (sh : TVShow) : SyncResult × Store × List NetCall :=
  match getCached env acc.2.1 sh.tmdbID with
  | .error _ => ({ acc.1 with errors := acc.1.errors + 1 }, acc.2.1, acc.2.2)
  | .ok none => (acc.1, acc.2.1, acc.2.2)
  | .ok (some d) =>
    let r1 := afterUpdate env acc.1 acc.2.1 sh d
    let r2 := afterSeasonSync env r1.2 acc.2.2 sh d
    let r3 := afterEpisodeCheck env r1.1 r2.1 sh d
    let r4 := afterEndedCheck env r3.1 r3.2 sh d
    (r4.1, r4.2, r2.2)

/-- SyncAll from task_generator.go: snapshot the non-archived shows
(GetAllActive; its read is not failure-injected), then run the per-show
body over the snapshot, accumulating the counters, the store, and the
trace of TMDB network calls. -/
def SyncAll (env : SyncEnv) (store : Store) : SyncResult × Store × List NetCall :=
  (store.shows.filter (fun s => !s.isArchived)).foldl (syncOneShow env)
    ({ updateTasks := 0, organizeTasks := 0, errors := 0 }, store, [])

/-- The store after n consecutive SyncAll passes under one environment. -/
def syncAllIter (env : SyncEnv) (store : Store) : Nat → Store
  | 0 => store
  | n + 1 => syncAllIter env (SyncAll env store).2.1 n

/-- C6 (amended): for any cached document, checkShowEnded creates a
SERIES_ENDED (ORGANIZE) reminder if and only if the lifecycle status is
Ended or Canceled, NO ORGANIZE reminder — completed or incomplete —
exists for the item, and the insert succeeds.  A completed ORGANIZE
reminder therefore does suppress creation, contrary to the claim. -/
theorem C6_organize_creation_iff (env : SyncEnv) (store : Store) (sh : TVShow)
    (d : TVDetails) :
    (∃ t s', checkShowEnded env store sh d = .ok (some t, s')) ↔
      ((d.status = str "Ended" ∨ d.status = str "Canceled") ∧
       ExistsOrganizeTask store.tasks sh.id = false ∧
       env.createTaskOk sh.id (str "剧集已完结，请整理归档本地文件") = true) := by
  unfold checkShowEnded
  by_cases h1 : d.status ≠ str "Ended" ∧ d.status ≠ str "Canceled"
  · rw [if_pos h1]
    constructor
    · rintro ⟨t, s', h⟩
      simp at h
    · rintro ⟨hst, -, -⟩
      rcases hst with h | h
      · exact absurd h h1.1
      · exact absurd h h1.2
  · rw [if_neg h1]
    have hst : d.status = str "Ended" ∨ d.status = str "Canceled" := by
      rcases not_and_or.mp h1 with h | h
      · exact Or.inl (not_not.mp h)
      · exact Or.inr (not_not.mp h)
    by_cases h2 : ExistsOrganizeTask store.tasks sh.id = true
    · rw [if_pos h2]
      constructor
      · rintro ⟨t, s', h⟩
        simp at h
      · rintro ⟨-, hfalse, -⟩
        rw [h2] at hfalse
        cases hfalse
    · rw [if_neg h2]
      by_cases h3 : env.createTaskOk sh.id (str "剧集已完结，请整理归档本地文件") = true
      · rw [if_pos h3]
        constructor
        · intro
          exact ⟨hst, by simpa using h2, h3⟩
        · intro
          exact ⟨_, _, rfl⟩
      · rw [if_neg h3]
        constructor
        · rintro ⟨t, s', h⟩
          cases h
        · rintro ⟨-, -, hok⟩
          exact absurd hok h3

/-- C6 counterexample: a pass over an item whose cached status is Ended
and whose only ORGANIZE reminder is already completed creates nothing —
the claim requires a new reminder, because no incomplete SERIES_ENDED
reminder exists at the start of the pass. -/
theorem C6_counterexample :
    (fun r => (r.1.organizeTasks, r.2.1.tasks.map Task.description))
      (SyncAll
        { today := 0, fetchEpisodes := fun _ _ => .ok [],
          getCachedOk := fun _ => true, updateShowOk := fun _ => true,
          upsertOk := fun _ _ _ => true, createTaskOk := fun _ _ => true }
        { shows := [{ id := 1, tmdbID := 7, name := str "A", totalSeasons := 1,
                      status := str "Ended", originCountry := str "US",
                      resourceTime := str "18:00", resourceTimeIsManual := false,
                      isArchived := false }],
          episodes := [],
          tasks := [{ id := 3, tvShowID := 1, taskType := TaskType.organize,
                      description := str "剧集已完结，请整理归档本地文件",
                      isCompleted := true, createdAt := 0 }],
          cache := [(7, { name := str "A", status := str "Ended",
                          originCountry := [str "US"], numberOfSeasons := 0,
                          nextEpisodeToAir := none, lastEpisodeToAir := none })],
          nextTaskId := 4 }) =
      (0, [str "剧集已完结，请整理归档本地文件"]) ∧
    [⟨3, 1, TaskType.organize, str "剧集已完结，请整理归档本地文件", true, 0⟩].all
      (fun t : Task => !(t.taskType == TaskType.organize) || t.isCompleted) = true := by
  exact ⟨rfl, by decide⟩

theorem upsertEpisodes_cache (env : SyncEnv) (tmdbID : Nat) :
    ∀ (eps : List EpisodeInfo) (store : Store),
      ((upsertEpisodes env store tmdbID eps).1.cache = store.cache ∧
       (upsertEpisodes env store tmdbID eps).1.shows = store.shows ∧
       (upsertEpisodes env store tmdbID eps).1.tasks = store.tasks ∧
       (upsertEpisodes env store tmdbID eps).1.nextTaskId = store.nextTaskId) := by
  intro eps
  induction eps with
  | nil => intro store; exact ⟨rfl, rfl, rfl, rfl⟩
  | cons ep rest ih =>
    intro store
    unfold upsertEpisodes
    by_cases h : env.upsertOk tmdbID ep.seasonNumber ep.episodeNumber
    · rw [if_pos h]
      exact ih _
    · rw [if_neg h]
      exact ⟨rfl, rfl, rfl, rfl⟩

theorem syncSeasonEpisodes_frame (env : SyncEnv) (store : Store) (tmdbID n : Nat) :
    (syncSeasonEpisodes env store tmdbID n).1.cache = store.cache ∧
    (syncSeasonEpisodes env store tmdbID n).1.shows = store.shows ∧
    (syncSeasonEpisodes env store tmdbID n).1.tasks = store.tasks ∧
    (syncSeasonEpisodes env store tmdbID n).1.nextTaskId = store.nextTaskId ∧
    (syncSeasonEpisodes env store tmdbID n).2.2 = [NetCall.fetchEpisodes tmdbID n] := by
  unfold syncSeasonEpisodes
  cases env.fetchEpisodes tmdbID n with
  | error e => exact ⟨rfl, rfl, rfl, rfl, rfl⟩
  | ok eps =>
    have h := upsertEpisodes_cache env tmdbID eps store
    exact ⟨h.1, h.2.1, h.2.2.1, h.2.2.2, rfl⟩

theorem createUpdateTaskInsert_cache {env : SyncEnv} {store : Store} {sh : TVShow}
    {ep : EpisodeInfo} {o : Option Task} {store' : Store}
    (h : createUpdateTaskInsert env store sh ep = .ok (o, store')) :
    store'.cache = store.cache := by
  unfold createUpdateTaskInsert at h
  by_cases hc : env.createTaskOk sh.id
      (updateTaskDescription (FormatEpisodeID ep.seasonNumber ep.episodeNumber) ep.name) = true
  · rw [if_pos hc] at h
    cases h
    rfl
  · rw [if_neg hc] at h
    cases h

theorem createUpdateTaskGuarded_cache {env : SyncEnv} {store : Store} {sh : TVShow}
    {ep : EpisodeInfo} {o : Option Task} {store' : Store}
    (h : createUpdateTaskGuarded env store sh ep = .ok (o, store')) :
    store'.cache = store.cache := by
  unfold createUpdateTaskGuarded at h
  revert h
  cases hg : GetByShowAndEpisode store.shows store.tasks sh.id
      (FormatEpisodeID ep.seasonNumber ep.episodeNumber) with
  | some t =>
    intro h
    have h' : (Except.ok (none, store) : Except Unit (Option Task × Store)) =
        .ok (o, store') := h
    cases h'
    rfl
  | none =>
    intro h
    exact createUpdateTaskInsert_cache h

theorem createUpdateTaskDue_cache {env : SyncEnv} {store : Store} {sh : TVShow}
    {ep : EpisodeInfo} {day : Int} {o : Option Task} {store' : Store}
    (h : createUpdateTaskDue env store sh ep day = .ok (o, store')) :
    store'.cache = store.cache := by
  unfold createUpdateTaskDue at h
  by_cases h1 : env.today < day
  · rw [if_pos h1] at h
    cases h
    rfl
  · rw [if_neg h1] at h
    exact createUpdateTaskGuarded_cache h

theorem createUpdateTaskIfNeeded_cache {env : SyncEnv} {store : Store} {sh : TVShow}
    {ep : EpisodeInfo} {o : Option Task} {store' : Store}
    (h : createUpdateTaskIfNeeded env store sh ep = .ok (o, store')) :
    store'.cache = store.cache := by
  unfold createUpdateTaskIfNeeded at h
  by_cases h0 : ep.airDate = []
  · rw [if_pos h0] at h
    cases h
    rfl
  · rw [if_neg h0] at h
    revert h
    cases hp : parseAirDate ep.airDate with
    | none =>
      intro h
      have h' : (Except.error () : Except Unit (Option Task × Store)) = .ok (o, store') := h
      cases h'
    | some day =>
      intro h
      exact @createUpdateTaskDue_cache env store sh ep day o store' h

theorem checkEpisodeLast_cache {env : SyncEnv} {store : Store} {sh : TVShow}
    {d : TVDetails} {o : Option Task} {store' : Store}
    (h : checkEpisodeLast env store sh d = .ok (o, store')) :
    store'.cache = store.cache := by
  unfold checkEpisodeLast at h
  revert h
  cases hl : d.lastEpisodeToAir with
  | none =>
    intro h
    have h' : (Except.ok (none, store) : Except Unit (Option Task × Store)) =
        .ok (o, store') := h
    cases h'
    rfl
  | some ep2 =>
    intro h
    exact createUpdateTaskIfNeeded_cache h

theorem checkEpisodeNext_cache {env : SyncEnv} {store : Store} {sh : TVShow}
    {d : TVDetails} {ep : EpisodeInfo} {o : Option Task} {store' : Store}
    (h : checkEpisodeNext env store sh d ep = .ok (o, store')) :
    store'.cache = store.cache := by
  unfold checkEpisodeNext at h
  revert h
  cases hc : createUpdateTaskIfNeeded env store sh ep with
  | error e =>
    intro h
    have h' : (Except.error e : Except Unit (Option Task × Store)) = .ok (o, store') := h
    cases h'
  | ok r =>
    obtain ⟨ot, st⟩ := r
    cases ot with
    | some t =>
      intro h
      have h' : (Except.ok (some t, st) : Except Unit (Option Task × Store)) =
          .ok (o, store') := h
      cases h'
      exact createUpdateTaskIfNeeded_cache hc
    | none =>
      intro h
      have h2 : checkEpisodeLast env st sh d = .ok (o, store') := h
      rw [checkEpisodeLast_cache h2]
      exact createUpdateTaskIfNeeded_cache hc

theorem checkEpisodeUpdate_cache {env : SyncEnv} {store : Store} {sh : TVShow}
    {d : TVDetails} {o : Option Task} {store' : Store}
    (h : checkEpisodeUpdate env store sh d = .ok (o, store')) :
    store'.cache = store.cache := by
  unfold checkEpisodeUpdate at h
  revert h
  cases hn : d.nextEpisodeToAir with
  | none =>
    intro h
    exact checkEpisodeLast_cache h
  | some ep =>
    intro h
    exact checkEpisodeNext_cache h

theorem checkShowEnded_cache {env : SyncEnv} {store : Store} {sh : TVShow}
    {d : TVDetails} {o : Option Task} {store' : Store}
    (h : checkShowEnded env store sh d = .ok (o, store')) :
    store'.cache = store.cache := by
  unfold checkShowEnded at h
  by_cases h1 : d.status ≠ str "Ended" ∧ d.status ≠ str "Canceled"
  · rw [if_pos h1] at h; cases h; rfl
  · rw [if_neg h1] at h
    by_cases h2 : ExistsOrganizeTask store.tasks sh.id = true
    · rw [if_pos h2] at h; cases h; rfl
    · rw [if_neg h2] at h
      by_cases h3 : env.createTaskOk sh.id (str "剧集已完结，请整理归档本地文件") = true
      · rw [if_pos h3] at h; cases h; rfl
      · rw [if_neg h3] at h; cases h

theorem updateShowData_cache {env : SyncEnv} {store : Store} {sh : TVShow}
    {d : TVDetails} {store' : Store} (h : updateShowData env store sh d = .ok store') :
    store'.cache = store.cache := by
  unfold updateShowData at h
  by_cases h1 : env.updateShowOk sh.id = true
  · rw [if_pos h1] at h; cases h; rfl
  · rw [if_neg h1] at h; cases h

/-- The TMDB network calls SyncAll makes on behalf of one item, as a
function of the pre-pass cache: one GetSeasonEpisodes call exactly when
the cache read succeeds, a document is cached, and it reports a positive
season count. -/
def itemNetCalls (env : SyncEnv) (cache : List (Nat × TVDetails)) (sh : TVShow) :
    List NetCall :=
  if env.getCachedOk sh.tmdbID then
    match (cache.find? (fun c => c.1 == sh.tmdbID)).map (fun c => c.2) with
    | some d =>
      if 0 < d.numberOfSeasons then [NetCall.fetchEpisodes sh.tmdbID d.numberOfSeasons]
      else []
    | none => []
  else []

theorem afterUpdate_cache (env : SyncEnv) (res : SyncResult) (store : Store)
    (sh : TVShow) (d : TVDetails) :
    (afterUpdate env res store sh d).2.cache = store.cache := by
  unfold afterUpdate
  cases hu : updateShowData env store sh d with
  | error e => rfl
  | ok store' => exact updateShowData_cache hu

theorem afterSeasonSync_frame (env : SyncEnv) (store : Store) (calls : List NetCall)
    (sh : TVShow) (d : TVDetails) :
    (afterSeasonSync env store calls sh d).1.cache = store.cache ∧
    (afterSeasonSync env store calls sh d).1.shows = store.shows ∧
    (afterSeasonSync env store calls sh d).1.tasks = store.tasks ∧
    (afterSeasonSync env store calls sh d).1.nextTaskId = store.nextTaskId ∧
    (afterSeasonSync env store calls sh d).2 = calls ++
      (if 0 < d.numberOfSeasons then [NetCall.fetchEpisodes sh.tmdbID d.numberOfSeasons]
       else []) := by
  unfold afterSeasonSync
  by_cases h : 0 < d.numberOfSeasons
  · rw [if_pos h, if_pos h]
    have hf := syncSeasonEpisodes_frame env store sh.tmdbID d.numberOfSeasons
    exact ⟨hf.1, hf.2.1, hf.2.2.1, hf.2.2.2.1, by
      show calls ++ (syncSeasonEpisodes env store sh.tmdbID d.numberOfSeasons).2.2 = _
      rw [hf.2.2.2.2]⟩
  · rw [if_neg h, if_neg h]
    exact ⟨rfl, rfl, rfl, rfl, by simp⟩

theorem afterEpisodeCheck_cache (env : SyncEnv) (res : SyncResult) (store : Store)
    (sh : TVShow) (d : TVDetails) :
    (afterEpisodeCheck env res store sh d).2.cache = store.cache := by
  unfold afterEpisodeCheck
  cases hc : checkEpisodeUpdate env store sh d with
  | error e => rfl
  | ok r =>
    obtain ⟨ot, st⟩ := r
    cases ot with
    | some t => exact checkEpisodeUpdate_cache hc
    | none => exact checkEpisodeUpdate_cache hc

theorem afterEndedCheck_cache (env : SyncEnv) (res : SyncResult) (store : Store)
    (sh : TVShow) (d : TVDetails) :
    (afterEndedCheck env res store sh d).2.cache = store.cache := by
  unfold afterEndedCheck
  cases hc : checkShowEnded env store sh d with
  | error e => rfl
  | ok r =>
    obtain ⟨ot, st⟩ := r
    cases ot with
    | some t => exact checkShowEnded_cache hc
    | none => exact checkShowEnded_cache hc

theorem syncOneShow_frame (env : SyncEnv) (acc : SyncResult × Store × List NetCall)
    (sh : TVShow) :
    (syncOneShow env acc sh).2.1.cache = acc.2.1.cache ∧
    (syncOneShow env acc sh).2.2 = acc.2.2 ++ itemNetCalls env acc.2.1.cache sh := by
  unfold syncOneShow
  cases hget : getCached env acc.2.1 sh.tmdbID with
  | error e =>
    have hit : itemNetCalls env acc.2.1.cache sh = [] := by
      unfold getCached at hget
      unfold itemNetCalls
      by_cases h1 : env.getCachedOk sh.tmdbID = true
      · rw [if_pos h1] at hget; cases hget
      · rw [if_neg h1]
    rw [hit]
    exact ⟨rfl, by simp⟩
  | ok od =>
    cases od with
    | none =>
      have hit : itemNetCalls env acc.2.1.cache sh = [] := by
        unfold getCached at hget
        unfold itemNetCalls
        by_cases h1 : env.getCachedOk sh.tmdbID = true
        · rw [if_pos h1] at hget ⊢
          injection hget with h2
          rw [h2]
        · rw [if_neg h1]
      rw [hit]
      exact ⟨rfl, by simp⟩
    | some d =>
      have hit : itemNetCalls env acc.2.1.cache sh =
          (if 0 < d.numberOfSeasons then [NetCall.fetchEpisodes sh.tmdbID d.numberOfSeasons]
           else []) := by
        unfold getCached at hget
        unfold itemNetCalls
        by_cases h1 : env.getCachedOk sh.tmdbID = true
        · rw [if_pos h1] at hget ⊢
          injection hget with h2
          rw [h2]
        · rw [if_neg h1] at hget; cases hget
      simp only []
      constructor
      · rw [afterEndedCheck_cache, afterEpisodeCheck_cache,
            (afterSeasonSync_frame env _ acc.2.2 sh d).1, afterUpdate_cache]
      · rw [(afterSeasonSync_frame env _ acc.2.2 sh d).2.2.2.2, hit]

theorem syncFold_frame (env : SyncEnv) :
    ∀ (l : List TVShow) (acc : SyncResult × Store × List NetCall),
      (l.foldl (syncOneShow env) acc).2.1.cache = acc.2.1.cache ∧
      (l.foldl (syncOneShow env) acc).2.2 =
        acc.2.2 ++ (l.map (itemNetCalls env acc.2.1.cache)).flatten := by
  intro l
  induction l with
  | nil => intro acc; exact ⟨rfl, by simp⟩
  | cons sh rest ih =>
    intro acc
    rw [List.foldl_cons]
    have hstep := syncOneShow_frame env acc sh
    have htail := ih (syncOneShow env acc sh)
    refine ⟨by rw [htail.1, hstep.1], ?_⟩
    rw [htail.2, hstep.1, hstep.2, List.map_cons, List.flatten_cons]
    rw [List.append_assoc]

/-- C5 (amended): a reconciliation pass never calls fetchDocument
(GetTVDetails) — documents are read from the cache only, and items with no
cache entry are skipped — but it does call fetchEpisodes
(GetSeasonEpisodes) once for every active item whose cache read succeeds
with a document reporting a positive season count. -/
theorem C5_network_calls (env : SyncEnv) (store : Store) :
    (SyncAll env store).2.2 =
      ((store.shows.filter (fun s => !s.isArchived)).map
        (itemNetCalls env store.cache)).flatten := by
  unfold SyncAll
  have h := syncFold_frame env (store.shows.filter (fun s => !s.isArchived))
    ({ updateTasks := 0, organizeTasks := 0, errors := 0 }, store, [])
  rw [h.2]
  simp

/-- C5 counterexample: with one active item whose cached document reports
three seasons, the pass performs a GetSeasonEpisodes network call — the
claim says reconciliation performs no network call at all. -/
theorem C5_counterexample :
    (SyncAll
      { today := 0, fetchEpisodes := fun _ _ => .ok [],
        getCachedOk := fun _ => true, updateShowOk := fun _ => true,
        upsertOk := fun _ _ _ => true, createTaskOk := fun _ _ => true }
      { shows := [{ id := 1, tmdbID := 7, name := str "A", totalSeasons := 3,
                    status := str "Returning Series", originCountry := str "US",
                    resourceTime := str "18:00", resourceTimeIsManual := false,
                    isArchived := false }],
        episodes := [],
        tasks := [],
        cache := [(7, { name := str "A", status := str "Returning Series",
                        originCountry := [str "US"], numberOfSeasons := 3,
                        nextEpisodeToAir := none, lastEpisodeToAir := none })],
        nextTaskId := 1 }).2.2 = [NetCall.fetchEpisodes 7 3] ∧
    [NetCall.fetchEpisodes 7 3] ≠ ([] : List NetCall) := by
  exact ⟨rfl, by decide⟩

theorem syncOneShow_eq_of {env : SyncEnv} {acc : SyncResult × Store × List NetCall}
    {sh : TVShow} {d : TVDetails}
    (hg : getCached env acc.2.1 sh.tmdbID = .ok (some d)) :
    syncOneShow env acc sh =
      ((afterEndedCheck env
          (afterEpisodeCheck env (afterUpdate env acc.1 acc.2.1 sh d).1
            (afterSeasonSync env (afterUpdate env acc.1 acc.2.1 sh d).2 acc.2.2 sh d).1
            sh d).1
          (afterEpisodeCheck env (afterUpdate env acc.1 acc.2.1 sh d).1
            (afterSeasonSync env (afterUpdate env acc.1 acc.2.1 sh d).2 acc.2.2 sh d).1
            sh d).2
          sh d).1,
       (afterEndedCheck env
          (afterEpisodeCheck env (afterUpdate env acc.1 acc.2.1 sh d).1
            (afterSeasonSync env (afterUpdate env acc.1 acc.2.1 sh d).2 acc.2.2 sh d).1
            sh d).1
          (afterEpisodeCheck env (afterUpdate env acc.1 acc.2.1 sh d).1
            (afterSeasonSync env (afterUpdate env acc.1 acc.2.1 sh d).2 acc.2.2 sh d).1
            sh d).2
          sh d).2,
       (afterSeasonSync env (afterUpdate env acc.1 acc.2.1 sh d).2 acc.2.2 sh d).2) := by
  unfold syncOneShow
  rw [hg]

theorem syncOneShow_skip {env : SyncEnv} {acc : SyncResult × Store × List NetCall}
    {sh : TVShow} (hg : getCached env acc.2.1 sh.tmdbID = .ok none) :
    syncOneShow env acc sh = (acc.1, acc.2.1, acc.2.2) := by
  unfold syncOneShow
  rw [hg]

theorem syncOneShow_cacheErr {env : SyncEnv} {acc : SyncResult × Store × List NetCall}
    {sh : TVShow} {e : Unit} (hg : getCached env acc.2.1 sh.tmdbID = .error e) :
    syncOneShow env acc sh =
      ({ acc.1 with errors := acc.1.errors + 1 }, acc.2.1, acc.2.2) := by
  unfold syncOneShow
  rw [hg]

theorem afterUpdate_fail {env : SyncEnv} {res : SyncResult} {store : Store}
    {sh : TVShow} {d : TVDetails} (h : env.updateShowOk sh.id = false) :
    afterUpdate env res store sh d = ({ res with errors := res.errors + 1 }, store) := by
  unfold afterUpdate updateShowData
  simp [h]

theorem afterUpdate_ok {env : SyncEnv} {res : SyncResult} {store : Store}
    {sh : TVShow} {d : TVDetails} (h : env.updateShowOk sh.id = true) :
    afterUpdate env res store sh d =
      (res, { store with shows := store.shows.map (fun s =>
        if s.id == sh.id then applyShowData sh d else s) }) := by
  unfold afterUpdate updateShowData
  simp [h]

theorem afterSeasonSync_zero {env : SyncEnv} {store : Store} {calls : List NetCall}
    {sh : TVShow} {d : TVDetails} (h : d.numberOfSeasons = 0) :
    afterSeasonSync env store calls sh d = (store, calls) := by
  unfold afterSeasonSync
  simp [h]

theorem afterEpisodeCheck_err {env : SyncEnv} {res : SyncResult} {store : Store}
    {sh : TVShow} {d : TVDetails} {e : Unit}
    (h : checkEpisodeUpdate env store sh d = .error e) :
    afterEpisodeCheck env res store sh d = ({ res with errors := res.errors + 1 }, store) := by
  unfold afterEpisodeCheck
  rw [h]

theorem afterEpisodeCheck_none {env : SyncEnv} {res : SyncResult} {store : Store}
    {sh : TVShow} {d : TVDetails} {store' : Store}
    (h : checkEpisodeUpdate env store sh d = .ok (none, store')) :
    afterEpisodeCheck env res store sh d = (res, store') := by
  unfold afterEpisodeCheck
  rw [h]

theorem afterEpisodeCheck_some {env : SyncEnv} {res : SyncResult} {store : Store}
    {sh : TVShow} {d : TVDetails} {t : Task} {store' : Store}
    (h : checkEpisodeUpdate env store sh d = .ok (some t, store')) :
    afterEpisodeCheck env res store sh d =
      ({ res with updateTasks := res.updateTasks + 1 }, store') := by
  unfold afterEpisodeCheck
  rw [h]

theorem afterEndedCheck_err {env : SyncEnv} {res : SyncResult} {store : Store}
    {sh : TVShow} {d : TVDetails} {e : Unit}
    (h : checkShowEnded env store sh d = .error e) :
    afterEndedCheck env res store sh d = ({ res with errors := res.errors + 1 }, store) := by
  unfold afterEndedCheck
  rw [h]

theorem afterEndedCheck_none {env : SyncEnv} {res : SyncResult} {store : Store}
    {sh : TVShow} {d : TVDetails} {store' : Store}
    (h : checkShowEnded env store sh d = .ok (none, store')) :
    afterEndedCheck env res store sh d = (res, store') := by
  unfold afterEndedCheck
  rw [h]

theorem afterEndedCheck_some {env : SyncEnv} {res : SyncResult} {store : Store}
    {sh : TVShow} {d : TVDetails} {t : Task} {store' : Store}
    (h : checkShowEnded env store sh d = .ok (some t, store')) :
    afterEndedCheck env res store sh d =
      ({ res with organizeTasks := res.organizeTasks + 1 }, store') := by
  unfold afterEndedCheck
  rw [h]

theorem getByShowAndEpisode_nil_tasks (shows : List TVShow) (sid : Nat) (tok : Str) :
    GetByShowAndEpisode shows [] sid tok = none := by
  unfold GetByShowAndEpisode firstTaskWhere
  cases hn : normalizeEpisodeID tok with
  | none => by_cases hs : shows.any (fun s => s.id == sid) <;> simp [hs]
  | some r =>
    obtain ⟨ntok, season, epn⟩ := r
    by_cases hs : shows.any (fun s => s.id == sid) <;> simp [hs]

theorem createUpdateTaskIfNeeded_parsed {env : SyncEnv} {store : Store} {sh : TVShow}
    {ep : EpisodeInfo} {day : Int} (h0 : ep.airDate ≠ [])
    (hp : parseAirDate ep.airDate = some day) :
    createUpdateTaskIfNeeded env store sh ep = createUpdateTaskDue env store sh ep day := by
  unfold createUpdateTaskIfNeeded
  rw [if_neg h0, hp]

theorem createUpdateTaskIfNeeded_emptyDate {env : SyncEnv} {store : Store} {sh : TVShow}
    {ep : EpisodeInfo} (h0 : ep.airDate = []) :
    createUpdateTaskIfNeeded env store sh ep = .ok (none, store) := by
  unfold createUpdateTaskIfNeeded
  rw [if_pos h0]

theorem createUpdateTaskDue_due {env : SyncEnv} {store : Store} {sh : TVShow}
    {ep : EpisodeInfo} {day : Int} (hd : ¬env.today < day) :
    createUpdateTaskDue env store sh ep day = createUpdateTaskGuarded env store sh ep := by
  unfold createUpdateTaskDue
  rw [if_neg hd]

theorem createUpdateTaskDue_future {env : SyncEnv} {store : Store} {sh : TVShow}
    {ep : EpisodeInfo} {day : Int} (hd : env.today < day) :
    createUpdateTaskDue env store sh ep day = .ok (none, store) := by
  unfold createUpdateTaskDue
  rw [if_pos hd]

theorem createUpdateTaskGuarded_noMatch {env : SyncEnv} {store : Store} {sh : TVShow}
    {ep : EpisodeInfo}
    (hg : GetByShowAndEpisode store.shows store.tasks sh.id
      (FormatEpisodeID ep.seasonNumber ep.episodeNumber) = none) :
    createUpdateTaskGuarded env store sh ep = createUpdateTaskInsert env store sh ep := by
  unfold createUpdateTaskGuarded
  rw [hg]

theorem createUpdateTaskGuarded_match {env : SyncEnv} {store : Store} {sh : TVShow}
    {ep : EpisodeInfo} {t : Task}
    (hg : GetByShowAndEpisode store.shows store.tasks sh.id
      (FormatEpisodeID ep.seasonNumber ep.episodeNumber) = some t) :
    createUpdateTaskGuarded env store sh ep = .ok (none, store) := by
  unfold createUpdateTaskGuarded
  rw [hg]

theorem createUpdateTaskInsert_fail {env : SyncEnv} {store : Store} {sh : TVShow}
    {ep : EpisodeInfo}
    (h : env.createTaskOk sh.id (updateTaskDescription
      (FormatEpisodeID ep.seasonNumber ep.episodeNumber) ep.name) = false) :
    createUpdateTaskInsert env store sh ep = .error () := by
  unfold createUpdateTaskInsert
  simp [h]

theorem createUpdateTaskInsert_ok {env : SyncEnv} {store : Store} {sh : TVShow}
    {ep : EpisodeInfo}
    (h : env.createTaskOk sh.id (updateTaskDescription
      (FormatEpisodeID ep.seasonNumber ep.episodeNumber) ep.name) = true) :
    createUpdateTaskInsert env store sh ep =
      .ok (some { id := store.nextTaskId, tvShowID := sh.id,
                  taskType := TaskType.update,
                  description := updateTaskDescription
                    (FormatEpisodeID ep.seasonNumber ep.episodeNumber) ep.name,
                  isCompleted := false, createdAt := env.today },
           { store with
             tasks := store.tasks ++
               [{ id := store.nextTaskId, tvShowID := sh.id,
                  taskType := TaskType.update,
                  description := updateTaskDescription
                    (FormatEpisodeID ep.seasonNumber ep.episodeNumber) ep.name,
                  isCompleted := false, createdAt := env.today }],
             nextTaskId := store.nextTaskId + 1 }) := by
  unfold createUpdateTaskInsert
  simp [h]

theorem checkEpisodeUpdate_next {env : SyncEnv} {store : Store} {sh : TVShow}
    {d : TVDetails} {ep : EpisodeInfo} (hn : d.nextEpisodeToAir = some ep) :
    checkEpisodeUpdate env store sh d = checkEpisodeNext env store sh d ep := by
  unfold checkEpisodeUpdate
  rw [hn]

theorem checkEpisodeUpdate_nonext {env : SyncEnv} {store : Store} {sh : TVShow}
    {d : TVDetails} (hn : d.nextEpisodeToAir = none) :
    checkEpisodeUpdate env store sh d = checkEpisodeLast env store sh d := by
  unfold checkEpisodeUpdate
  rw [hn]

theorem checkEpisodeNext_err {env : SyncEnv} {store : Store} {sh : TVShow}
    {d : TVDetails} {ep : EpisodeInfo} {e : Unit}
    (hc : createUpdateTaskIfNeeded env store sh ep = .error e) :
    checkEpisodeNext env store sh d ep = .error e := by
  unfold checkEpisodeNext
  rw [hc]

theorem checkEpisodeNext_created {env : SyncEnv} {store : Store} {sh : TVShow}
    {d : TVDetails} {ep : EpisodeInfo} {t : Task} {store' : Store}
    (hc : createUpdateTaskIfNeeded env store sh ep = .ok (some t, store')) :
    checkEpisodeNext env store sh d ep = .ok (some t, store') := by
  unfold checkEpisodeNext
  rw [hc]

theorem checkEpisodeNext_none {env : SyncEnv} {store : Store} {sh : TVShow}
    {d : TVDetails} {ep : EpisodeInfo} {store' : Store}
    (hc : createUpdateTaskIfNeeded env store sh ep = .ok (none, store')) :
    checkEpisodeNext env store sh d ep = checkEpisodeLast env store' sh d := by
  unfold checkEpisodeNext
  rw [hc]

theorem checkEpisodeLast_nolast {env : SyncEnv} {store : Store} {sh : TVShow}
    {d : TVDetails} (hl : d.lastEpisodeToAir = none) :
    checkEpisodeLast env store sh d = .ok (none, store) := by
  unfold checkEpisodeLast
  rw [hl]

theorem checkEpisodeLast_last {env : SyncEnv} {store : Store} {sh : TVShow}
    {d : TVDetails} {ep2 : EpisodeInfo} (hl : d.lastEpisodeToAir = some ep2) :
    checkEpisodeLast env store sh d = createUpdateTaskIfNeeded env store sh ep2 := by
  unfold checkEpisodeLast
  rw [hl]

theorem checkShowEnded_notEnded {env : SyncEnv} {store : Store} {sh : TVShow}
    {d : TVDetails} (h : d.status ≠ str "Ended" ∧ d.status ≠ str "Canceled") :
    checkShowEnded env store sh d = .ok (none, store) := by
  unfold checkShowEnded
  rw [if_pos h]

theorem checkShowEnded_exists {env : SyncEnv} {store : Store} {sh : TVShow}
    {d : TVDetails} (h : ¬(d.status ≠ str "Ended" ∧ d.status ≠ str "Canceled"))
    (he : ExistsOrganizeTask store.tasks sh.id = true) :
    checkShowEnded env store sh d = .ok (none, store) := by
  unfold checkShowEnded
  rw [if_neg h, if_pos he]

theorem checkShowEnded_create {env : SyncEnv} {store : Store} {sh : TVShow}
    {d : TVDetails} (h : ¬(d.status ≠ str "Ended" ∧ d.status ≠ str "Canceled"))
    (he : ExistsOrganizeTask store.tasks sh.id = false)
    (hc : env.createTaskOk sh.id (str "剧集已完结，请整理归档本地文件") = true) :
    checkShowEnded env store sh d =
      .ok (some { id := store.nextTaskId, tvShowID := sh.id,
                  taskType := TaskType.organize,
                  description := str "剧集已完结，请整理归档本地文件",
                  isCompleted := false, createdAt := env.today },
           { store with
             tasks := store.tasks ++
               [{ id := store.nextTaskId, tvShowID := sh.id,
                  taskType := TaskType.organize,
                  description := str "剧集已完结，请整理归档本地文件",
                  isCompleted := false, createdAt := env.today }],
             nextTaskId := store.nextTaskId + 1 }) := by
  unfold checkShowEnded
  rw [if_neg h, if_neg (by rw [he]; intro hcon; cases hcon), if_pos hc]

theorem checkShowEnded_createFail {env : SyncEnv} {store : Store} {sh : TVShow}
    {d : TVDetails} (h : ¬(d.status ≠ str "Ended" ∧ d.status ≠ str "Canceled"))
    (he : ExistsOrganizeTask store.tasks sh.id = false)
    (hc : env.createTaskOk sh.id (str "剧集已完结，请整理归档本地文件") = false) :
    checkShowEnded env store sh d = .error () := by
  unfold checkShowEnded
  rw [if_neg h, if_neg (by rw [he]; intro hcon; cases hcon), if_neg (by rw [hc]; intro hcon; cases hcon)]

/-- C7 (amended): per-item attribute-update failures and reminder-creation
failures each increment the pass's aggregate error count and the pass
continues with the next item — here the first item suffers both failures
(two errors) and the pass still processes the second item, whose
SERIES_ENDED reminder gets created.  An episode-sync failure, by contrast,
is logged but not counted (see the counterexample). -/
theorem C7_failure_counting (env : SyncEnv) (da db : TVDetails) (epa : EpisodeInfo)
    (day : Int)
    (h1 : env.getCachedOk 7 = true) (h2 : env.getCachedOk 8 = true)
    (h3 : env.updateShowOk 1 = false) (h4 : env.updateShowOk 2 = true)
    (h5 : da.numberOfSeasons = 0) (h6 : db.numberOfSeasons = 0)
    (h7 : da.status ≠ str "Ended" ∧ da.status ≠ str "Canceled")
    (h8 : db.status = str "Ended")
    (h9 : da.nextEpisodeToAir = some epa)
    (h11 : epa.airDate ≠ [])
    (hp : parseAirDate epa.airDate = some day)
    (hd : ¬env.today < day)
    (h13 : env.createTaskOk 1 (updateTaskDescription
      (FormatEpisodeID epa.seasonNumber epa.episodeNumber) epa.name) = false)
    (h14 : db.nextEpisodeToAir = none) (h15 : db.lastEpisodeToAir = none)
    (h16 : env.createTaskOk 2 (str "剧集已完结，请整理归档本地文件") = true) :
    (fun r => (r.1.errors, r.1.organizeTasks,
        r.2.1.tasks.map (fun t => (t.tvShowID, t.taskType, t.isCompleted))))
      (SyncAll env
        { shows := [⟨1, 7, str "A", 1, str "X", str "US", str "18:00", false, false⟩,
                    ⟨2, 8, str "B", 1, str "Y", str "US", str "18:00", false, false⟩],
          episodes := [], tasks := [],
          cache := [(7, da), (8, db)], nextTaskId := 1 }) =
      (2, 1, [(2, TaskType.organize, false)]) := by
  have hgA : getCached env
      { shows := [⟨1, 7, str "A", 1, str "X", str "US", str "18:00", false, false⟩,
                  ⟨2, 8, str "B", 1, str "Y", str "US", str "18:00", false, false⟩],
        episodes := [], tasks := [],
        cache := [(7, da), (8, db)], nextTaskId := 1 } 7 = .ok (some da) := by
    unfold getCached
    rw [if_pos h1]
    rfl
  have hgB : getCached env
      { shows := [⟨1, 7, str "A", 1, str "X", str "US", str "18:00", false, false⟩,
                  ⟨2, 8, str "B", 1, str "Y", str "US", str "18:00", false, false⟩],
        episodes := [], tasks := [],
        cache := [(7, da), (8, db)], nextTaskId := 1 } 8 = .ok (some db) := by
    unfold getCached
    rw [if_pos h2]
    rfl
  have hciA : createUpdateTaskIfNeeded env
      { shows := [⟨1, 7, str "A", 1, str "X", str "US", str "18:00", false, false⟩,
                  ⟨2, 8, str "B", 1, str "Y", str "US", str "18:00", false, false⟩],
        episodes := [], tasks := [],
        cache := [(7, da), (8, db)], nextTaskId := 1 }
      ⟨1, 7, str "A", 1, str "X", str "US", str "18:00", false, false⟩ epa = .error () := by
    rw [createUpdateTaskIfNeeded_parsed h11 hp, createUpdateTaskDue_due hd,
        createUpdateTaskGuarded_noMatch (by exact getByShowAndEpisode_nil_tasks _ _ _)]
    exact createUpdateTaskInsert_fail h13
  have hcA : checkEpisodeUpdate env
      { shows := [⟨1, 7, str "A", 1, str "X", str "US", str "18:00", false, false⟩,
                  ⟨2, 8, str "B", 1, str "Y", str "US", str "18:00", false, false⟩],
        episodes := [], tasks := [],
        cache := [(7, da), (8, db)], nextTaskId := 1 }
      ⟨1, 7, str "A", 1, str "X", str "US", str "18:00", false, false⟩ da = .error () := by
    rw [checkEpisodeUpdate_next h9]
    exact checkEpisodeNext_err hciA
  unfold SyncAll
  rw [show ({ shows :=
                [⟨1, 7, str "A", 1, str "X", str "US", str "18:00", false, false⟩,
                 ⟨2, 8, str "B", 1, str "Y", str "US", str "18:00", false, false⟩],
              episodes := [], tasks := [],
              cache := [(7, da), (8, db)], nextTaskId := 1 } : Store).shows.filter
        (fun s => !s.isArchived) =
      [⟨1, 7, str "A", 1, str "X", str "US", str "18:00", false, false⟩,
       ⟨2, 8, str "B", 1, str "Y", str "US", str "18:00", false, false⟩] from rfl]
  rw [List.foldl_cons]
  rw [syncOneShow_eq_of hgA]
  rw [afterUpdate_fail h3, afterSeasonSync_zero h5, afterEpisodeCheck_err hcA,
      afterEndedCheck_none (checkShowEnded_notEnded h7)]
  rw [List.foldl_cons]
  rw [syncOneShow_eq_of hgB]
  rw [afterUpdate_ok h4, afterSeasonSync_zero h6]
  rw [afterEpisodeCheck_none (by
    rw [checkEpisodeUpdate_nonext h14]
    exact checkEpisodeLast_nolast h15)]
  rw [afterEndedCheck_some (checkShowEnded_create
    (fun hcon => hcon.1 h8) (by rfl) h16)]
  rfl

/-- C7 witness: the counting theorem at a fully concrete environment and
pair of documents. -/
theorem C7_failure_counting_witness :
    (fun r => (r.1.errors, r.1.organizeTasks,
        r.2.1.tasks.map (fun t => (t.tvShowID, t.taskType, t.isCompleted))))
      (SyncAll
        { today := 800000, fetchEpisodes := fun _ _ => .ok [],
          getCachedOk := fun _ => true, updateShowOk := fun i => i == 2,
          upsertOk := fun _ _ _ => true, createTaskOk := fun i _ => i == 2 }
        { shows := [⟨1, 7, str "A", 1, str "X", str "US", str "18:00", false, false⟩,
                    ⟨2, 8, str "B", 1, str "Y", str "US", str "18:00", false, false⟩],
          episodes := [], tasks := [],
          cache :=
            [(7,
              { name := str "DA", status := str "Returning Series",
                originCountry := [], numberOfSeasons := 0,
                nextEpisodeToAir :=
                  some { airDate := str "2020-01-01", episodeNumber := 3,
                         seasonNumber := 2, name := str "ep", overview := str "" },
                lastEpisodeToAir := none }),
             (8,
              { name := str "DB", status := str "Ended",
                originCountry := [], numberOfSeasons := 0,
                nextEpisodeToAir := none, lastEpisodeToAir := none })],
          nextTaskId := 1 }) =
      (2, 1, [(2, TaskType.organize, false)]) :=
  C7_failure_counting
    { today := 800000, fetchEpisodes := fun _ _ => .ok [],
      getCachedOk := fun _ => true, updateShowOk := fun i => i == 2,
      upsertOk := fun _ _ _ => true, createTaskOk := fun i _ => i == 2 }
    { name := str "DA", status := str "Returning Series", originCountry := [],
      numberOfSeasons := 0,
      nextEpisodeToAir :=
        some { airDate := str "2020-01-01", episodeNumber := 3,
               seasonNumber := 2, name := str "ep", overview := str "" },
      lastEpisodeToAir := none }
    { name := str "DB", status := str "Ended", originCountry := [],
      numberOfSeasons := 0, nextEpisodeToAir := none, lastEpisodeToAir := none }
    { airDate := str "2020-01-01", episodeNumber := 3, seasonNumber := 2,
      name := str "ep", overview := str "" }
    751440 rfl rfl rfl rfl rfl rfl (by decide) rfl rfl (by decide) (by decide)
    (by decide) rfl rfl rfl rfl

/-- C7 counterexample: a failing episode sync — the GetSeasonEpisodes call
is made and fails — leaves the pass's aggregate error count at zero; the
claim requires the failure to be counted. -/
theorem C7_counterexample :
    (fun r => (r.1.errors, r.2.2))
      (SyncAll
        { today := 0, fetchEpisodes := fun _ _ => .error (),
          getCachedOk := fun _ => true, updateShowOk := fun _ => true,
          upsertOk := fun _ _ _ => true, createTaskOk := fun _ _ => true }
        { shows := [⟨1, 7, str "A", 2, str "X", str "US", str "18:00", false, false⟩],
          episodes := [], tasks := [],
          cache :=
            [(7,
              { name := str "A", status := str "Returning Series",
                originCountry := [], numberOfSeasons := 2,
                nextEpisodeToAir := none, lastEpisodeToAir := none })],
          nextTaskId := 1 }) = (0, [NetCall.fetchEpisodes 7 2]) := rfl

theorem createUpdateTaskIfNeeded_none {env : SyncEnv} {store : Store} {sh : TVShow}
    {ep : EpisodeInfo} {store' : Store}
    (h : createUpdateTaskIfNeeded env store sh ep = .ok (none, store')) :
    store' = store := by
  unfold createUpdateTaskIfNeeded at h
  by_cases h0 : ep.airDate = []
  · rw [if_pos h0] at h
    cases h
    rfl
  · rw [if_neg h0] at h
    revert h
    cases hp : parseAirDate ep.airDate with
    | none =>
      intro h
      have h' : (Except.error () : Except Unit (Option Task × Store)) =
          .ok ((none : Option Task), store') := h
      cases h'
    | some day =>
      intro h
      have h2 : createUpdateTaskDue env store sh ep day = .ok (none, store') := h
      unfold createUpdateTaskDue at h2
      by_cases h1 : env.today < day
      · rw [if_pos h1] at h2
        cases h2
        rfl
      · rw [if_neg h1] at h2
        unfold createUpdateTaskGuarded at h2
        revert h2
        cases hg : GetByShowAndEpisode store.shows store.tasks sh.id
            (FormatEpisodeID ep.seasonNumber ep.episodeNumber) with
        | some tx =>
          intro h2
          have h3 : (Except.ok ((none : Option Task), store) :
              Except Unit (Option Task × Store)) = .ok (none, store') := h2
          cases h3
          rfl
        | none =>
          intro h2
          have h3 : createUpdateTaskInsert env store sh ep = .ok (none, store') := h2
          unfold createUpdateTaskInsert at h3
          by_cases hc : env.createTaskOk sh.id (updateTaskDescription
              (FormatEpisodeID ep.seasonNumber ep.episodeNumber) ep.name) = true
          · rw [if_pos hc] at h3
            cases h3
          · rw [if_neg hc] at h3
            cases h3

theorem createUpdateTaskIfNeeded_some {env : SyncEnv} {store : Store} {sh : TVShow}
    {ep : EpisodeInfo} {t : Task} {store' : Store}
    (h : createUpdateTaskIfNeeded env store sh ep = .ok (some t, store')) :
    t = { id := store.nextTaskId, tvShowID := sh.id, taskType := TaskType.update,
          description := updateTaskDescription
            (FormatEpisodeID ep.seasonNumber ep.episodeNumber) ep.name,
          isCompleted := false, createdAt := env.today } ∧
    store' = { store with
               tasks := store.tasks ++ [t],
               nextTaskId := store.nextTaskId + 1 } ∧
    GetByShowAndEpisode store.shows store.tasks sh.id
      (FormatEpisodeID ep.seasonNumber ep.episodeNumber) = none := by
  unfold createUpdateTaskIfNeeded at h
  by_cases h0 : ep.airDate = []
  · rw [if_pos h0] at h
    cases h
  · rw [if_neg h0] at h
    revert h
    cases hp : parseAirDate ep.airDate with
    | none =>
      intro h
      have h' : (Except.error () : Except Unit (Option Task × Store)) =
          .ok (some t, store') := h
      cases h'
    | some day =>
      intro h
      have h2 : createUpdateTaskDue env store sh ep day = .ok (some t, store') := h
      unfold createUpdateTaskDue at h2
      by_cases h1 : env.today < day
      · rw [if_pos h1] at h2
        cases h2
      · rw [if_neg h1] at h2
        unfold createUpdateTaskGuarded at h2
        revert h2
        cases hg : GetByShowAndEpisode store.shows store.tasks sh.id
            (FormatEpisodeID ep.seasonNumber ep.episodeNumber) with
        | some tx =>
          intro h2
          have h3 : (Except.ok ((none : Option Task), store) :
              Except Unit (Option Task × Store)) = .ok (some t, store') := h2
          cases h3
        | none =>
          intro h2
          have h3 : createUpdateTaskInsert env store sh ep = .ok (some t, store') := h2
          unfold createUpdateTaskInsert at h3
          by_cases hc : env.createTaskOk sh.id (updateTaskDescription
              (FormatEpisodeID ep.seasonNumber ep.episodeNumber) ep.name) = true
          · rw [if_pos hc] at h3
            cases h3
            exact ⟨rfl, rfl, rfl⟩
          · rw [if_neg hc] at h3
            cases h3

theorem checkShowEnded_none {env : SyncEnv} {store : Store} {sh : TVShow}
    {d : TVDetails} {store' : Store}
    (h : checkShowEnded env store sh d = .ok (none, store')) :
    store' = store := by
  unfold checkShowEnded at h
  by_cases h1 : d.status ≠ str "Ended" ∧ d.status ≠ str "Canceled"
  · rw [if_pos h1] at h
    cases h
    rfl
  · rw [if_neg h1] at h
    by_cases h2 : ExistsOrganizeTask store.tasks sh.id = true
    · rw [if_pos h2] at h
      cases h
      rfl
    · rw [if_neg h2] at h
      by_cases h3 : env.createTaskOk sh.id (str "剧集已完结，请整理归档本地文件") = true
      · rw [if_pos h3] at h
        cases h
      · rw [if_neg h3] at h
        cases h

theorem checkShowEnded_some {env : SyncEnv} {store : Store} {sh : TVShow}
    {d : TVDetails} {t : Task} {store' : Store}
    (h : checkShowEnded env store sh d = .ok (some t, store')) :
    t = { id := store.nextTaskId, tvShowID := sh.id, taskType := TaskType.organize,
          description := str "剧集已完结，请整理归档本地文件",
          isCompleted := false, createdAt := env.today } ∧
    store' = { store with
               tasks := store.tasks ++ [t],
               nextTaskId := store.nextTaskId + 1 } ∧
    ExistsOrganizeTask store.tasks sh.id = false := by
  unfold checkShowEnded at h
  by_cases h1 : d.status ≠ str "Ended" ∧ d.status ≠ str "Canceled"
  · rw [if_pos h1] at h
    cases h
  · rw [if_neg h1] at h
    by_cases h2 : ExistsOrganizeTask store.tasks sh.id = true
    · rw [if_pos h2] at h
      cases h
    · rw [if_neg h2] at h
      by_cases h3 : env.createTaskOk sh.id (str "剧集已完结，请整理归档本地文件") = true
      · rw [if_pos h3] at h
        cases h
        exact ⟨rfl, rfl, by simpa using h2⟩
      · rw [if_neg h3] at h
        cases h

theorem checkEpisodeLast_none {env : SyncEnv} {store : Store} {sh : TVShow}
    {d : TVDetails} {store' : Store}
    (h : checkEpisodeLast env store sh d = .ok (none, store')) :
    store' = store := by
  unfold checkEpisodeLast at h
  revert h
  cases hl : d.lastEpisodeToAir with
  | none =>
    intro h
    have h' : (Except.ok ((none : Option Task), store) :
        Except Unit (Option Task × Store)) = .ok (none, store') := h
    cases h'
    rfl
  | some ep2 =>
    intro h
    exact createUpdateTaskIfNeeded_none h

theorem checkEpisodeLast_some {env : SyncEnv} {store : Store} {sh : TVShow}
    {d : TVDetails} {t : Task} {store' : Store}
    (h : checkEpisodeLast env store sh d = .ok (some t, store')) :
    ∃ s e nm,
      t = { id := store.nextTaskId, tvShowID := sh.id, taskType := TaskType.update,
            description := updateTaskDescription (FormatEpisodeID s e) nm,
            isCompleted := false, createdAt := env.today } ∧
      store' = { store with
                 tasks := store.tasks ++ [t],
                 nextTaskId := store.nextTaskId + 1 } ∧
      GetByShowAndEpisode store.shows store.tasks sh.id (FormatEpisodeID s e) = none := by
  unfold checkEpisodeLast at h
  revert h
  cases hl : d.lastEpisodeToAir with
  | none =>
    intro h
    have h' : (Except.ok ((none : Option Task), store) :
        Except Unit (Option Task × Store)) = .ok (some t, store') := h
    cases h'
  | some ep2 =>
    intro h
    obtain ⟨ht, hs, hg⟩ := createUpdateTaskIfNeeded_some h
    exact ⟨ep2.seasonNumber, ep2.episodeNumber, ep2.name, ht, hs, hg⟩

theorem checkEpisodeUpdate_none {env : SyncEnv} {store : Store} {sh : TVShow}
    {d : TVDetails} {store' : Store}
    (h : checkEpisodeUpdate env store sh d = .ok (none, store')) :
    store' = store := by
  unfold checkEpisodeUpdate at h
  revert h
  cases hn : d.nextEpisodeToAir with
  | none =>
    intro h
    exact checkEpisodeLast_none h
  | some ep =>
    intro h
    have h2 : checkEpisodeNext env store sh d ep = .ok (none, store') := h
    unfold checkEpisodeNext at h2
    revert h2
    cases hc : createUpdateTaskIfNeeded env store sh ep with
    | error e =>
      intro h2
      have h3 : (Except.error e : Except Unit (Option Task × Store)) =
          .ok (none, store') := h2
      cases h3
    | ok r =>
      obtain ⟨ot, st⟩ := r
      cases ot with
      | some tx =>
        intro h2
        have h3 : (Except.ok (some tx, st) : Except Unit (Option Task × Store)) =
            .ok (none, store') := h2
        cases h3
      | none =>
        intro h2
        have h3 : checkEpisodeLast env st sh d = .ok (none, store') := h2
        rw [checkEpisodeLast_none h3]
        exact createUpdateTaskIfNeeded_none hc

theorem checkEpisodeUpdate_some {env : SyncEnv} {store : Store} {sh : TVShow}
    {d : TVDetails} {t : Task} {store' : Store}
    (h : checkEpisodeUpdate env store sh d = .ok (some t, store')) :
    ∃ s e nm,
      t = { id := store.nextTaskId, tvShowID := sh.id, taskType := TaskType.update,
            description := updateTaskDescription (FormatEpisodeID s e) nm,
            isCompleted := false, createdAt := env.today } ∧
      store' = { store with
                 tasks := store.tasks ++ [t],
                 nextTaskId := store.nextTaskId + 1 } ∧
      GetByShowAndEpisode store.shows store.tasks sh.id (FormatEpisodeID s e) = none := by
  unfold checkEpisodeUpdate at h
  revert h
  cases hn : d.nextEpisodeToAir with
  | none =>
    intro h
    exact checkEpisodeLast_some h
  | some ep =>
    intro h
    have h2 : checkEpisodeNext env store sh d ep = .ok (some t, store') := h
    unfold checkEpisodeNext at h2
    revert h2
    cases hc : createUpdateTaskIfNeeded env store sh ep with
    | error e =>
      intro h2
      have h3 : (Except.error e : Except Unit (Option Task × Store)) =
          .ok (some t, store') := h2
      cases h3
    | ok r =>
      obtain ⟨ot, st⟩ := r
      cases ot with
      | some tx =>
        intro h2
        have h3 : (Except.ok (some tx, st) : Except Unit (Option Task × Store)) =
            .ok (some t, store') := h2
        cases h3
        obtain ⟨ht, hs, hg⟩ := createUpdateTaskIfNeeded_some hc
        exact ⟨ep.seasonNumber, ep.episodeNumber, ep.name, ht, hs, hg⟩
      | none =>
        intro h2
        have h3 : checkEpisodeLast env st sh d = .ok (some t, store') := h2
        have hst : st = store := createUpdateTaskIfNeeded_none hc
        rw [hst] at h3
        exact checkEpisodeLast_some h3

theorem ciStartsWith_refl_append (p t : Str) : ciStartsWith p (p ++ t) = true := by
  induction p with
  | nil => rfl
  | cons a ps ih => simp [ciStartsWith, ih]

theorem ciStartsWith_of_prefix {p d : Str} (h : p <+: d) : ciStartsWith p d = true := by
  obtain ⟨t, rfl⟩ := h
  exact ciStartsWith_refl_append p t

theorem pipe_not_mem_format (s e : Nat) : '|' ∉ FormatEpisodeID s e := by
  intro hmem
  unfold FormatEpisodeID at hmem
  rcases List.mem_cons.mp hmem with h | h
  · exact absurd h (by decide)
  · rcases List.mem_append.mp h with h2 | h2
    · exact absurd (pad2_all_digit s _ h2) (by decide)
    · rcases List.mem_cons.mp h2 with h3 | h3
      · exact absurd h3 (by decide)
      · exact absurd (pad2_all_digit e _ h3) (by decide)

/-- Two token-pipe keys as prefixes of the same description: either the
keys agree, or the written token-pipe form is itself a prefix of the other
key. -/
theorem token_prefix_cases {tok0 tokF rest : Str} (hpipe : '|' ∉ tokF)
    (h0 : (tok0 ++ ['|']) <+: (tokF ++ '|' :: rest)) :
    tok0 = tokF ∨ (tokF ++ ['|']) <+: tok0 := by
  have hF : (tokF ++ ['|']) <+: (tokF ++ '|' :: rest) := by
    have he : tokF ++ '|' :: rest = (tokF ++ ['|']) ++ rest := by simp
    rw [he]
    exact List.prefix_append _ _
  by_cases hlen : tok0.length ≤ tokF.length
  · have h1 : (tok0 ++ ['|']) <+: (tokF ++ ['|']) :=
      List.prefix_of_prefix_length_le h0 hF (by simp [hlen])
    by_cases heq : tok0.length = tokF.length
    · left
      have h2 := h1.eq_of_length (by simp [heq])
      exact List.append_cancel_right h2
    · exfalso
      have h2 : (tok0 ++ ['|']) <+: tokF :=
        List.prefix_of_prefix_length_le h1 (List.prefix_append tokF ['|'])
          (by simp; omega)
      obtain ⟨t2, ht2⟩ := h2
      apply hpipe
      rw [← ht2]
      simp
  · right
    have h1 : (tokF ++ ['|']) <+: (tok0 ++ ['|']) :=
      List.prefix_of_prefix_length_le hF h0 (by simp; omega)
    exact List.prefix_of_prefix_length_le h1 (List.prefix_append tok0 ['|'])
      (by simp; omega)

theorem getByShowAndEpisode_none_elim {shows : List TVShow} {tasks : List Task}
    {sid : Nat} {tok ntok : Str} {s e : Nat}
    (hn : normalizeEpisodeID tok = some (ntok, s, e))
    (hmem : ∃ s0 ∈ shows, s0.id = sid)
    (h : GetByShowAndEpisode shows tasks sid tok = none) :
    ∀ t ∈ tasks, t.tvShowID = sid →
      ciStartsWith (ntok ++ ['|']) t.description = false := by
  unfold GetByShowAndEpisode at h
  rw [hn] at h
  have h1 : (match firstTaskWhere shows tasks sid
        (fun d => ciStartsWith (ntok ++ ['|']) d) with
      | some t => some t
      | none =>
        match firstTaskWhere shows tasks sid (fun d => ciContains ntok d) with
        | some t => some t
        | none => firstTaskWhere shows tasks sid
            (fun d => hasBoundedOcc ('S' :: (natDigits s ++ 'E' :: natDigits e)) d)) =
      (none : Option Task) := h
  clear h
  revert h1
  cases hf : firstTaskWhere shows tasks sid (fun d => ciStartsWith (ntok ++ ['|']) d) with
  | some t =>
    intro h1
    have h2 : (some t : Option Task) = none := h1
    cases h2
  | none =>
    intro h1
    unfold firstTaskWhere at hf
    have hany : shows.any (fun s0 => s0.id == sid) = true := by
      rcases hmem with ⟨sh0, hsh0, hid⟩
      exact List.any_eq_true.mpr ⟨sh0, hsh0, by simp [hid]⟩
    rw [if_pos hany] at hf
    intro t ht hid
    have hnone := List.find?_eq_none.mp hf t ht
    cases hciv : ciStartsWith (ntok ++ ['|']) t.description
    · rfl
    · exact absurd (by simp [hid, hciv]) hnone

theorem applyShowData_id (sh : TVShow) (d : TVDetails) :
    (applyShowData sh d).id = sh.id := by
  unfold applyShowData
  split
  · rfl
  · simp only []
    repeat' split
    all_goals rfl

theorem mapped_shows_id (shows : List TVShow) (sh : TVShow) (d : TVDetails) :
    (shows.map (fun s => if s.id == sh.id then applyShowData sh d else s)).map
      TVShow.id = shows.map TVShow.id := by
  rw [List.map_map]
  apply List.map_congr_left
  intro s _
  by_cases h : (s.id == sh.id) = true
  · have hid : s.id = sh.id := eq_of_beq h
    simp [Function.comp, h, applyShowData_id, hid]
  · simp [Function.comp, h]

theorem afterUpdate_facts (env : SyncEnv) (res : SyncResult) (store : Store)
    (sh : TVShow) (d : TVDetails) :
    (afterUpdate env res store sh d).2.tasks = store.tasks ∧
    (afterUpdate env res store sh d).2.shows.map TVShow.id =
      store.shows.map TVShow.id := by
  unfold afterUpdate updateShowData
  by_cases h : env.updateShowOk sh.id = true
  · rw [if_pos h]
    exact ⟨rfl, mapped_shows_id store.shows sh d⟩
  · rw [if_neg h]
    exact ⟨rfl, rfl⟩

/-- The ORGANIZE reminder description written by checkShowEnded. -/
def orgDescription : Str := str "剧集已完结，请整理归档本地文件"

theorem afterEndedCheck_tasks (env : SyncEnv) (res : SyncResult) (store : Store)
    (sh : TVShow) (d : TVDetails) :
    ∃ o : Option Task,
      (afterEndedCheck env res store sh d).2.tasks = store.tasks ++ o.toList ∧
      (afterEndedCheck env res store sh d).2.shows = store.shows ∧
      ∀ x, o = some x → x.tvShowID = sh.id ∧ x.taskType = TaskType.organize ∧
        x.isCompleted = false ∧ x.description = orgDescription ∧
        ExistsOrganizeTask store.tasks sh.id = false := by
  cases hX : checkShowEnded env store sh d with
  | error e =>
    refine ⟨none, ?_, ?_, ?_⟩ <;> simp [afterEndedCheck_err hX]
  | ok r =>
    obtain ⟨ot, st'⟩ := r
    cases ot with
    | none =>
      have hst : st' = store := checkShowEnded_none hX
      subst hst
      refine ⟨none, ?_, ?_, ?_⟩ <;> simp [afterEndedCheck_none hX]
    | some t =>
      obtain ⟨ht, hs, hg⟩ := checkShowEnded_some hX
      refine ⟨some t, ?_, ?_, ?_⟩
      · rw [afterEndedCheck_some hX, hs]
        rfl
      · rw [afterEndedCheck_some hX, hs]
      · rintro x hx
        cases hx
        rw [ht]
        exact ⟨rfl, rfl, rfl, rfl, hg⟩

theorem afterEpisodeCheck_tasks (env : SyncEnv) (res : SyncResult) (store : Store)
    (sh : TVShow) (d : TVDetails) (hmem : ∃ s0 ∈ store.shows, s0.id = sh.id) :
    ∃ u : Option Task,
      (afterEpisodeCheck env res store sh d).2.tasks = store.tasks ++ u.toList ∧
      (afterEpisodeCheck env res store sh d).2.shows = store.shows ∧
      ∀ x, u = some x → x.tvShowID = sh.id ∧ x.taskType = TaskType.update ∧
        x.isCompleted = false ∧
        ∃ s e nm, x.description = updateTaskDescription (FormatEpisodeID s e) nm ∧
          ∀ t ∈ store.tasks, t.tvShowID = sh.id →
            ciStartsWith (FormatEpisodeID s e ++ ['|']) t.description = false := by
  cases hE : checkEpisodeUpdate env store sh d with
  | error e =>
    refine ⟨none, ?_, ?_, ?_⟩ <;> simp [afterEpisodeCheck_err hE]
  | ok r =>
    obtain ⟨ot, st'⟩ := r
    cases ot with
    | none =>
      have hst : st' = store := checkEpisodeUpdate_none hE
      subst hst
      refine ⟨none, ?_, ?_, ?_⟩ <;> simp [afterEpisodeCheck_none hE]
    | some t =>
      obtain ⟨s, e, nm, ht, hs, hg⟩ := checkEpisodeUpdate_some hE
      refine ⟨some t, ?_, ?_, ?_⟩
      · rw [afterEpisodeCheck_some hE, hs]
        rfl
      · rw [afterEpisodeCheck_some hE, hs]
      · rintro x hx
        cases hx
        refine ⟨by rw [ht], by rw [ht], by rw [ht], s, e, nm, by rw [ht], ?_⟩
        exact getByShowAndEpisode_none_elim (normalize_format s e) hmem hg

theorem existsOrganize_append_false {l1 l2 : List Task} {sid : Nat}
    (h : ExistsOrganizeTask (l1 ++ l2) sid = false) :
    ExistsOrganizeTask l1 sid = false := by
  unfold ExistsOrganizeTask at h ⊢
  rw [List.any_append] at h
  exact (Bool.or_eq_false_iff.mp h).1

/-- Facts about one UPDATE task freshly inserted by the loop body while the
task table held tasks0: it is an incomplete UPDATE reminder of the item,
its description is the token-pipe form of some canonical token, and at
insertion time no reminder of the item had that token-pipe key (the
duplicate guard). -/
def NewUpd (tasks0 : List Task) (sid : Nat) (u : Task) : Prop :=
  u.tvShowID = sid ∧ u.taskType = TaskType.update ∧ u.isCompleted = false ∧
  ∃ s e nm, u.description = updateTaskDescription (FormatEpisodeID s e) nm ∧
    ∀ t ∈ tasks0, t.tvShowID = sid →
      ciStartsWith (FormatEpisodeID s e ++ ['|']) t.description = false

/-- Facts about one ORGANIZE task freshly inserted by the loop body while
the task table held tasks0: it is an incomplete ORGANIZE reminder of the
item and at insertion time the item had no ORGANIZE reminder at all. -/
def NewOrg (tasks0 : List Task) (sid : Nat) (o : Task) : Prop :=
  o.tvShowID = sid ∧ o.taskType = TaskType.organize ∧ o.isCompleted = false ∧
  o.description = orgDescription ∧ ExistsOrganizeTask tasks0 sid = false

/-- One loop-body step appends at most one UPDATE and at most one ORGANIZE
task, each satisfying its freshness facts, and preserves the show id
column. -/
theorem syncOneShow_tasks (env : SyncEnv) (acc : SyncResult × Store × List NetCall)
    (sh : TVShow) (hmem : sh.id ∈ acc.2.1.shows.map TVShow.id) :
    ∃ u o : Option Task,
      (syncOneShow env acc sh).2.1.tasks = (acc.2.1.tasks ++ u.toList) ++ o.toList ∧
      (syncOneShow env acc sh).2.1.shows.map TVShow.id =
        acc.2.1.shows.map TVShow.id ∧
      (∀ x, u = some x → NewUpd acc.2.1.tasks sh.id x) ∧
      (∀ x, o = some x → NewOrg acc.2.1.tasks sh.id x) := by
  cases hget : getCached env acc.2.1 sh.tmdbID with
  | error e =>
    refine ⟨none, none, ?_, ?_, ?_, ?_⟩ <;> simp [syncOneShow_cacheErr hget]
  | ok od =>
    cases od with
    | none =>
      refine ⟨none, none, ?_, ?_, ?_, ?_⟩ <;> simp [syncOneShow_skip hget]
    | some d =>
      rw [syncOneShow_eq_of hget]
      obtain ⟨hU_tasks, hU_ids⟩ := afterUpdate_facts env acc.1 acc.2.1 sh d
      have hS := afterSeasonSync_frame env (afterUpdate env acc.1 acc.2.1 sh d).2
        acc.2.2 sh d
      have hmem2 : ∃ s0 ∈ (afterSeasonSync env (afterUpdate env acc.1 acc.2.1 sh d).2
          acc.2.2 sh d).1.shows, s0.id = sh.id := by
        have hids2 : (afterSeasonSync env (afterUpdate env acc.1 acc.2.1 sh d).2
            acc.2.2 sh d).1.shows.map TVShow.id = acc.2.1.shows.map TVShow.id := by
          rw [hS.2.1, hU_ids]
        have : sh.id ∈ (afterSeasonSync env (afterUpdate env acc.1 acc.2.1 sh d).2
            acc.2.2 sh d).1.shows.map TVShow.id := by rw [hids2]; exact hmem
        obtain ⟨s0, hs0, hid⟩ := List.mem_map.mp this
        exact ⟨s0, hs0, hid⟩
      obtain ⟨u, hu_tasks, hu_shows, hu_new⟩ := afterEpisodeCheck_tasks env
        (afterUpdate env acc.1 acc.2.1 sh d).1
        (afterSeasonSync env (afterUpdate env acc.1 acc.2.1 sh d).2 acc.2.2 sh d).1
        sh d hmem2
      obtain ⟨o, ho_tasks, ho_shows, ho_new⟩ := afterEndedCheck_tasks env
        (afterEpisodeCheck env (afterUpdate env acc.1 acc.2.1 sh d).1
          (afterSeasonSync env (afterUpdate env acc.1 acc.2.1 sh d).2 acc.2.2 sh d).1
          sh d).1
        (afterEpisodeCheck env (afterUpdate env acc.1 acc.2.1 sh d).1
          (afterSeasonSync env (afterUpdate env acc.1 acc.2.1 sh d).2 acc.2.2 sh d).1
          sh d).2
        sh d
      have hbase : (afterSeasonSync env (afterUpdate env acc.1 acc.2.1 sh d).2
          acc.2.2 sh d).1.tasks = acc.2.1.tasks := by
        rw [hS.2.2.1, hU_tasks]
      refine ⟨u, o, ?_, ?_, ?_, ?_⟩
      · rw [ho_tasks, hu_tasks, hbase]
      · rw [ho_shows, hu_shows, hS.2.1, hU_ids]
      · intro x hx
        have hn := hu_new x hx
        rw [hbase] at hn
        exact hn
      · intro x hx
        have hn := ho_new x hx
        obtain ⟨h1, h2, h3, h4, h5⟩ := hn
        rw [hu_tasks, hbase] at h5
        exact ⟨h1, h2, h3, h4, existsOrganize_append_false h5⟩

/-- Number of incomplete UPDATE reminders of one item whose description
begins with the token-pipe key: the claim's notion of incomplete
NEW_EPISODE reminders per (item, episode token). -/
def updIncompleteCount (tasks : List Task) (sid : Nat) (tok : Str) : Nat :=
  tasks.countP (fun t => t.tvShowID == sid && t.taskType == TaskType.update &&
    !t.isCompleted && (tok ++ ['|']).isPrefixOf t.description)

/-- Number of incomplete ORGANIZE reminders of one item: the claim's
notion of incomplete SERIES_ENDED reminders per item. -/
def orgIncompleteCount (tasks : List Task) (sid : Nat) : Nat :=
  tasks.countP (fun t => t.tvShowID == sid && t.taskType == TaskType.organize &&
    !t.isCompleted)

/-- Number of reminders of one item — completed or not, of any type —
whose description begins with the token-pipe key. -/
def updTokenCount (tasks : List Task) (sid : Nat) (tok : Str) : Nat :=
  tasks.countP (fun t => t.tvShowID == sid && (tok ++ ['|']).isPrefixOf t.description)

theorem updIncompleteCount_append (l1 l2 : List Task) (sid : Nat) (tok : Str) :
    updIncompleteCount (l1 ++ l2) sid tok =
      updIncompleteCount l1 sid tok + updIncompleteCount l2 sid tok := by
  unfold updIncompleteCount
  exact List.countP_append _ l1 l2

theorem orgIncompleteCount_append (l1 l2 : List Task) (sid : Nat) :
    orgIncompleteCount (l1 ++ l2) sid =
      orgIncompleteCount l1 sid + orgIncompleteCount l2 sid := by
  unfold orgIncompleteCount
  exact List.countP_append _ l1 l2

theorem updTokenCount_append (l1 l2 : List Task) (sid : Nat) (tok : Str) :
    updTokenCount (l1 ++ l2) sid tok =
      updTokenCount l1 sid tok + updTokenCount l2 sid tok := by
  unfold updTokenCount
  exact List.countP_append _ l1 l2

theorem updateTaskDescription_shape (eid nm : Str) :
    updateTaskDescription eid nm =
      eid ++ '|' :: (str "新剧集更新: " ++ (eid ++ (str " - " ++ nm))) := by
  unfold updateTaskDescription
  have hp : str "|新剧集更新: " = '|' :: str "新剧集更新: " := rfl
  rw [hp]
  simp [List.append_assoc]

/-- A freshly inserted UPDATE task whose description carries the key
tok0-pipe certifies that no reminder of the item carried that key before
the insertion. -/
theorem newUpd_blocks {tasks0 : List Task} {shid : Nat} {tok0 : Str} {u : Task}
    (h : NewUpd tasks0 shid u)
    (hpre : (tok0 ++ ['|']).isPrefixOf u.description = true) :
    ∀ t ∈ tasks0, t.tvShowID = shid →
      (tok0 ++ ['|']).isPrefixOf t.description = false := by
  obtain ⟨hsid, htype, hcomp, s, e, nm, hdesc, hall⟩ := h
  rw [hdesc, updateTaskDescription_shape] at hpre
  have hpre2 := List.isPrefixOf_iff_prefix.mp hpre
  rcases token_prefix_cases (pipe_not_mem_format s e) hpre2 with heq | hext
  · intro t ht hid
    cases hb : (tok0 ++ ['|']).isPrefixOf t.description
    · rfl
    · exfalso
      have hp := ciStartsWith_of_prefix (List.isPrefixOf_iff_prefix.mp hb)
      rw [heq] at hp
      rw [hall t ht hid] at hp
      cases hp
  · intro t ht hid
    cases hb : (tok0 ++ ['|']).isPrefixOf t.description
    · rfl
    · exfalso
      have hp : (FormatEpisodeID s e ++ ['|']) <+: t.description :=
        hext.trans ((List.prefix_append tok0 ['|']).trans
          (List.isPrefixOf_iff_prefix.mp hb))
      have hc := ciStartsWith_of_prefix hp
      rw [hall t ht hid] at hc
      cases hc

theorem updIncompleteCount_toList_le_one (o : Option Task) (sid : Nat) (tok : Str) :
    updIncompleteCount o.toList sid tok ≤ 1 := by
  unfold updIncompleteCount
  cases o with
  | none => simp
  | some x =>
    rw [show (some x).toList = [x] from rfl, List.countP_cons, List.countP_nil]
    by_cases h : (x.tvShowID == sid && x.taskType == TaskType.update &&
        !x.isCompleted && (tok ++ ['|']).isPrefixOf x.description) = true <;> simp [h]

theorem orgIncompleteCount_toList_le_one (o : Option Task) (sid : Nat) :
    orgIncompleteCount o.toList sid ≤ 1 := by
  unfold orgIncompleteCount
  cases o with
  | none => simp
  | some x =>
    rw [show (some x).toList = [x] from rfl, List.countP_cons, List.countP_nil]
    by_cases h : (x.tvShowID == sid && x.taskType == TaskType.organize &&
        !x.isCompleted) = true <;> simp [h]

theorem updIncompleteCount_org_zero {x : Task} (hty : x.taskType = TaskType.organize)
    (sid : Nat) (tok : Str) : updIncompleteCount [x] sid tok = 0 := by
  unfold updIncompleteCount
  rw [List.countP_cons, List.countP_nil]
  simp [hty]

theorem orgIncompleteCount_upd_zero {x : Task} (hty : x.taskType = TaskType.update)
    (sid : Nat) : orgIncompleteCount [x] sid = 0 := by
  unfold orgIncompleteCount
  rw [List.countP_cons, List.countP_nil]
  simp [hty]

/-- One loop-body step keeps every (item, token) class of incomplete
UPDATE reminders at its previous size or at one. -/
theorem step_updIncomplete_le (env : SyncEnv) (acc : SyncResult × Store × List NetCall)
    (sh : TVShow) (hmem : sh.id ∈ acc.2.1.shows.map TVShow.id) (sid : Nat) (tok : Str) :
    updIncompleteCount (syncOneShow env acc sh).2.1.tasks sid tok ≤
      max (updIncompleteCount acc.2.1.tasks sid tok) 1 := by
  obtain ⟨u, o, htasks, hids, hu, ho⟩ := syncOneShow_tasks env acc sh hmem
  rw [htasks, updIncompleteCount_append, updIncompleteCount_append]
  have horg : updIncompleteCount o.toList sid tok = 0 := by
    cases o with
    | none => rfl
    | some x => exact updIncompleteCount_org_zero (ho x rfl).2.1 sid tok
  have hM1 : updIncompleteCount acc.2.1.tasks sid tok ≤
      max (updIncompleteCount acc.2.1.tasks sid tok) 1 := le_max_left _ _
  have hM2 : 1 ≤ max (updIncompleteCount acc.2.1.tasks sid tok) 1 := le_max_right _ _
  cases u with
  | none =>
    have : updIncompleteCount (Option.none (α := Task)).toList sid tok = 0 := rfl
    omega
  | some x =>
    have hle := updIncompleteCount_toList_le_one (some x) sid tok
    by_cases hpx : (x.tvShowID == sid && x.taskType == TaskType.update &&
        !x.isCompleted && (tok ++ ['|']).isPrefixOf x.description) = true
    · simp only [Bool.and_eq_true, beq_iff_eq] at hpx
      obtain ⟨⟨⟨hxsid, hxty⟩, hxic⟩, hxpre⟩ := hpx
      have hxn := hu x rfl
      have hsid_eq : sid = sh.id := by rw [← hxsid, hxn.1]
      have hblocks := newUpd_blocks hxn hxpre
      have hbase : updIncompleteCount acc.2.1.tasks sid tok = 0 := by
        unfold updIncompleteCount
        rw [List.countP_eq_zero]
        intro t ht hpt
        simp only [Bool.and_eq_true, beq_iff_eq] at hpt
        obtain ⟨⟨⟨h1, _⟩, _⟩, h4⟩ := hpt
        have hbl := hblocks t ht (by rw [h1, hsid_eq])
        rw [h4] at hbl
        cases hbl
      omega
    · have hzero : updIncompleteCount (some x).toList sid tok = 0 := by
        unfold updIncompleteCount
        rw [show (some x).toList = [x] from rfl, List.countP_cons, List.countP_nil]
        cases hvv : (x.tvShowID == sid && x.taskType == TaskType.update &&
            !x.isCompleted && (tok ++ ['|']).isPrefixOf x.description)
        · simp
        · exact absurd hvv hpx
      omega

/-- One loop-body step keeps every item class of incomplete ORGANIZE
reminders at its previous size or at one. -/
theorem step_orgIncomplete_le (env : SyncEnv) (acc : SyncResult × Store × List NetCall)
    (sh : TVShow) (hmem : sh.id ∈ acc.2.1.shows.map TVShow.id) (sid : Nat) :
    orgIncompleteCount (syncOneShow env acc sh).2.1.tasks sid ≤
      max (orgIncompleteCount acc.2.1.tasks sid) 1 := by
  obtain ⟨u, o, htasks, hids, hu, ho⟩ := syncOneShow_tasks env acc sh hmem
  rw [htasks, orgIncompleteCount_append, orgIncompleteCount_append]
  have hupd : orgIncompleteCount u.toList sid = 0 := by
    cases u with
    | none => rfl
    | some x => exact orgIncompleteCount_upd_zero (hu x rfl).2.1 sid
  have hM1 : orgIncompleteCount acc.2.1.tasks sid ≤
      max (orgIncompleteCount acc.2.1.tasks sid) 1 := le_max_left _ _
  have hM2 : 1 ≤ max (orgIncompleteCount acc.2.1.tasks sid) 1 := le_max_right _ _
  cases o with
  | none =>
    have : orgIncompleteCount (Option.none (α := Task)).toList sid = 0 := rfl
    omega
  | some x =>
    have hle := orgIncompleteCount_toList_le_one (some x) sid
    by_cases hpx : (x.tvShowID == sid && x.taskType == TaskType.organize &&
        !x.isCompleted) = true
    · simp only [Bool.and_eq_true, beq_iff_eq] at hpx
      obtain ⟨⟨hxsid, hxty⟩, hxic⟩ := hpx
      have hxn := ho x rfl
      have hsid_eq : sid = sh.id := by rw [← hxsid, hxn.1]
      have hexf : ExistsOrganizeTask acc.2.1.tasks sh.id = false := hxn.2.2.2.2
      have hbase : orgIncompleteCount acc.2.1.tasks sid = 0 := by
        unfold orgIncompleteCount
        rw [List.countP_eq_zero]
        intro t ht hpt
        simp only [Bool.and_eq_true, beq_iff_eq] at hpt
        obtain ⟨⟨h1, h2⟩, h3⟩ := hpt
        unfold ExistsOrganizeTask at hexf
        have := List.any_eq_false.mp hexf t ht
        apply this
        simp [h1, h2, hsid_eq]
      omega
    · have hzero : orgIncompleteCount (some x).toList sid = 0 := by
        unfold orgIncompleteCount
        rw [show (some x).toList = [x] from rfl, List.countP_cons, List.countP_nil]
        cases hvv : (x.tvShowID == sid && x.taskType == TaskType.organize &&
            !x.isCompleted)
        · simp
        · exact absurd hvv hpx
      omega

theorem pipe_not_mem_orgDescription : '|' ∉ orgDescription := by decide

/-- One loop-body step preserves the exact number of reminders carrying a
given token-pipe key, as soon as at least one such reminder exists. -/
theorem step_updTokenCount_eq (env : SyncEnv) (acc : SyncResult × Store × List NetCall)
    (sh : TVShow) (hmem : sh.id ∈ acc.2.1.shows.map TVShow.id) (sid s0 e0 : Nat)
    (hpos : 1 ≤ updTokenCount acc.2.1.tasks sid (FormatEpisodeID s0 e0)) :
    updTokenCount (syncOneShow env acc sh).2.1.tasks sid (FormatEpisodeID s0 e0) =
      updTokenCount acc.2.1.tasks sid (FormatEpisodeID s0 e0) := by
  obtain ⟨u, o, htasks, hids, hu, ho⟩ := syncOneShow_tasks env acc sh hmem
  rw [htasks, updTokenCount_append, updTokenCount_append]
  obtain ⟨t0, ht0, hpt0⟩ : ∃ t0 ∈ acc.2.1.tasks, (t0.tvShowID == sid &&
      (FormatEpisodeID s0 e0 ++ ['|']).isPrefixOf t0.description) = true := by
    by_contra hcon
    push_neg at hcon
    have : updTokenCount acc.2.1.tasks sid (FormatEpisodeID s0 e0) = 0 := by
      unfold updTokenCount
      rw [List.countP_eq_zero]
      intro t ht hp
      exact absurd hp (by simpa using hcon t ht)
    omega
  simp only [Bool.and_eq_true, beq_iff_eq] at hpt0
  have horg : updTokenCount o.toList sid (FormatEpisodeID s0 e0) = 0 := by
    cases o with
    | none => rfl
    | some x =>
      unfold updTokenCount
      rw [show (some x).toList = [x] from rfl, List.countP_cons, List.countP_nil]
      have hdesc := (ho x rfl).2.2.2.1
      cases hb : (FormatEpisodeID s0 e0 ++ ['|']).isPrefixOf x.description
      · simp [hb]
      · exfalso
        obtain ⟨t2, ht2⟩ := List.isPrefixOf_iff_prefix.mp hb
        apply pipe_not_mem_orgDescription
        rw [← hdesc, ← ht2]
        simp
  have hupd : updTokenCount u.toList sid (FormatEpisodeID s0 e0) = 0 := by
    cases u with
    | none => rfl
    | some x =>
      unfold updTokenCount
      rw [show (some x).toList = [x] from rfl, List.countP_cons, List.countP_nil]
      cases hpx : (x.tvShowID == sid &&
          (FormatEpisodeID s0 e0 ++ ['|']).isPrefixOf x.description)
      · simp [hpx]
      · exfalso
        simp only [Bool.and_eq_true, beq_iff_eq] at hpx
        have hxn := hu x rfl
        have hsid_eq : sid = sh.id := by rw [← hpx.1, hxn.1]
        have hbl := newUpd_blocks hxn hpx.2 t0 ht0 (by rw [hpt0.1, hsid_eq])
        rw [hpt0.2] at hbl
        cases hbl
  omega

theorem fold_updIncomplete_le (env : SyncEnv) :
    ∀ (l : List TVShow) (acc : SyncResult × Store × List NetCall),
      (∀ sh ∈ l, sh.id ∈ acc.2.1.shows.map TVShow.id) → ∀ (sid : Nat) (tok : Str),
      updIncompleteCount (l.foldl (syncOneShow env) acc).2.1.tasks sid tok ≤
        max (updIncompleteCount acc.2.1.tasks sid tok) 1 := by
  intro l
  induction l with
  | nil => intro acc hsub sid tok; exact le_max_left _ _
  | cons sh rest ih =>
    intro acc hsub sid tok
    rw [List.foldl_cons]
    have hmem := hsub sh (List.mem_cons_self sh rest)
    obtain ⟨u, o, htasks, hids, hu, ho⟩ := syncOneShow_tasks env acc sh hmem
    have hsub2 : ∀ s2 ∈ rest,
        s2.id ∈ (syncOneShow env acc sh).2.1.shows.map TVShow.id := by
      intro s2 hs2
      rw [hids]
      exact hsub s2 (List.mem_cons_of_mem sh hs2)
    have h1 := ih (syncOneShow env acc sh) hsub2 sid tok
    have h2 := step_updIncomplete_le env acc sh hmem sid tok
    exact le_trans h1 (max_le h2 (le_max_right _ _))

theorem fold_orgIncomplete_le (env : SyncEnv) :
    ∀ (l : List TVShow) (acc : SyncResult × Store × List NetCall),
      (∀ sh ∈ l, sh.id ∈ acc.2.1.shows.map TVShow.id) → ∀ (sid : Nat),
      orgIncompleteCount (l.foldl (syncOneShow env) acc).2.1.tasks sid ≤
        max (orgIncompleteCount acc.2.1.tasks sid) 1 := by
  intro l
  induction l with
  | nil => intro acc hsub sid; exact le_max_left _ _
  | cons sh rest ih =>
    intro acc hsub sid
    rw [List.foldl_cons]
    have hmem := hsub sh (List.mem_cons_self sh rest)
    obtain ⟨u, o, htasks, hids, hu, ho⟩ := syncOneShow_tasks env acc sh hmem
    have hsub2 : ∀ s2 ∈ rest,
        s2.id ∈ (syncOneShow env acc sh).2.1.shows.map TVShow.id := by
      intro s2 hs2
      rw [hids]
      exact hsub s2 (List.mem_cons_of_mem sh hs2)
    have h1 := ih (syncOneShow env acc sh) hsub2 sid
    have h2 := step_orgIncomplete_le env acc sh hmem sid
    exact le_trans h1 (max_le h2 (le_max_right _ _))

theorem fold_updTokenCount_eq (env : SyncEnv) :
    ∀ (l : List TVShow) (acc : SyncResult × Store × List NetCall),
      (∀ sh ∈ l, sh.id ∈ acc.2.1.shows.map TVShow.id) → ∀ (sid s0 e0 : Nat),
      1 ≤ updTokenCount acc.2.1.tasks sid (FormatEpisodeID s0 e0) →
      updTokenCount (l.foldl (syncOneShow env) acc).2.1.tasks sid
          (FormatEpisodeID s0 e0) =
        updTokenCount acc.2.1.tasks sid (FormatEpisodeID s0 e0) := by
  intro l
  induction l with
  | nil => intro acc hsub sid s0 e0 hpos; rfl
  | cons sh rest ih =>
    intro acc hsub sid s0 e0 hpos
    rw [List.foldl_cons]
    have hmem := hsub sh (List.mem_cons_self sh rest)
    obtain ⟨u, o, htasks, hids, hu, ho⟩ := syncOneShow_tasks env acc sh hmem
    have hstep := step_updTokenCount_eq env acc sh hmem sid s0 e0 hpos
    have hsub2 : ∀ s2 ∈ rest,
        s2.id ∈ (syncOneShow env acc sh).2.1.shows.map TVShow.id := by
      intro s2 hs2
      rw [hids]
      exact hsub s2 (List.mem_cons_of_mem sh hs2)
    have hpos2 : 1 ≤ updTokenCount (syncOneShow env acc sh).2.1.tasks sid
        (FormatEpisodeID s0 e0) := by
      rw [hstep]
      exact hpos
    rw [ih (syncOneShow env acc sh) hsub2 sid s0 e0 hpos2, hstep]

theorem SyncAll_updIncomplete_le (env : SyncEnv) (store : Store) (sid : Nat)
    (tok : Str) :
    updIncompleteCount (SyncAll env store).2.1.tasks sid tok ≤
      max (updIncompleteCount store.tasks sid tok) 1 := by
  have h := fold_updIncomplete_le env (store.shows.filter (fun s => !s.isArchived))
    ({ updateTasks := 0, organizeTasks := 0, errors := 0 }, store, [])
    (fun sh hsh => List.mem_map_of_mem TVShow.id (List.mem_of_mem_filter hsh))
    sid tok
  exact h

theorem SyncAll_orgIncomplete_le (env : SyncEnv) (store : Store) (sid : Nat) :
    orgIncompleteCount (SyncAll env store).2.1.tasks sid ≤
      max (orgIncompleteCount store.tasks sid) 1 := by
  have h := fold_orgIncomplete_le env (store.shows.filter (fun s => !s.isArchived))
    ({ updateTasks := 0, organizeTasks := 0, errors := 0 }, store, [])
    (fun sh hsh => List.mem_map_of_mem TVShow.id (List.mem_of_mem_filter hsh))
    sid
  exact h

theorem SyncAll_updTokenCount_eq (env : SyncEnv) (store : Store) (sid s0 e0 : Nat)
    (hpos : 1 ≤ updTokenCount store.tasks sid (FormatEpisodeID s0 e0)) :
    updTokenCount (SyncAll env store).2.1.tasks sid (FormatEpisodeID s0 e0) =
      updTokenCount store.tasks sid (FormatEpisodeID s0 e0) := by
  have h := fold_updTokenCount_eq env (store.shows.filter (fun s => !s.isArchived))
    ({ updateTasks := 0, organizeTasks := 0, errors := 0 }, store, [])
    (fun sh hsh => List.mem_map_of_mem TVShow.id (List.mem_of_mem_filter hsh))
    sid s0 e0 hpos
  exact h

theorem iter_updIncomplete_le (env : SyncEnv) :
    ∀ (N : Nat) (store : Store) (sid : Nat) (tok : Str),
      updIncompleteCount (syncAllIter env store N).tasks sid tok ≤
        max (updIncompleteCount store.tasks sid tok) 1 := by
  intro N
  induction N with
  | zero => intro store sid tok; exact le_max_left _ _
  | succ n ih =>
    intro store sid tok
    have h1 := ih (SyncAll env store).2.1 sid tok
    have h2 := SyncAll_updIncomplete_le env store sid tok
    exact le_trans h1 (max_le h2 (le_max_right _ _))

theorem iter_orgIncomplete_le (env : SyncEnv) :
    ∀ (N : Nat) (store : Store) (sid : Nat),
      orgIncompleteCount (syncAllIter env store N).tasks sid ≤
        max (orgIncompleteCount store.tasks sid) 1 := by
  intro N
  induction N with
  | zero => intro store sid; exact le_max_left _ _
  | succ n ih =>
    intro store sid
    have h1 := ih (SyncAll env store).2.1 sid
    have h2 := SyncAll_orgIncomplete_le env store sid
    exact le_trans h1 (max_le h2 (le_max_right _ _))

theorem iter_updTokenCount_eq (env : SyncEnv) :
    ∀ (N : Nat) (store : Store) (sid s0 e0 : Nat),
      1 ≤ updTokenCount store.tasks sid (FormatEpisodeID s0 e0) →
      updTokenCount (syncAllIter env store N).tasks sid (FormatEpisodeID s0 e0) =
        updTokenCount store.tasks sid (FormatEpisodeID s0 e0) := by
  intro N
  induction N with
  | zero => intro store sid s0 e0 hpos; rfl
  | succ n ih =>
    intro store sid s0 e0 hpos
    have h2 := SyncAll_updTokenCount_eq env store sid s0 e0 hpos
    have h1 := ih (SyncAll env store).2.1 sid s0 e0 (by rw [h2]; exact hpos)
    show updTokenCount (syncAllIter env (SyncAll env store).2.1 n).tasks sid
        (FormatEpisodeID s0 e0) = updTokenCount store.tasks sid (FormatEpisodeID s0 e0)
    rw [h1, h2]

/-- Environment with no injected failures, for concrete runs. -/
def envOk : SyncEnv where
  today := 751500
  fetchEpisodes := fun _ _ => .ok []
  getCachedOk := fun _ => true
  updateShowOk := fun _ => true
  upsertOk := fun _ _ _ => true
  createTaskOk := fun _ _ => true

/-- An active show used in concrete runs. -/
def showA : TVShow where
  id := 1
  tmdbID := 7
  name := str "A"
  totalSeasons := 1
  status := str "Returning Series"
  originCountry := str "US"
  resourceTime := str "18:00"
  resourceTimeIsManual := false
  isArchived := false

/-- A cached document for showA: still running, no seasons to sync, no
episode pointers. -/
def detailsA : TVDetails where
  name := str "A"
  status := str "Returning Series"
  originCountry := [str "US"]
  numberOfSeasons := 0
  nextEpisodeToAir := none
  lastEpisodeToAir := none

/-- A duplicate incomplete UPDATE reminder with the S01E01 key. -/
def dupTask (i : Nat) : Task where
  id := i
  tvShowID := 1
  taskType := TaskType.update
  description := str "S01E01|新剧集更新: S01E01 - A"
  isCompleted := false
  createdAt := 0

/-- A store that already violates the per-(item, token) uniqueness
invariant before any pass runs. -/
def storeDup : Store where
  shows := [showA]
  episodes := []
  tasks := [dupTask 1, dupTask 2]
  cache := [(7, detailsA)]
  nextTaskId := 3

/-- A duplicate-free starting store for the witness run. -/
def storeClean : Store where
  shows := [showA]
  episodes := []
  tasks := []
  cache := [(7, detailsA)]
  nextTaskId := 1

/-- C1 (amended): a pass never deduplicates, so the unconditional claim
fails, but each pass preserves the uniqueness invariant: starting from a
store with at most one incomplete UPDATE reminder per (item, token-pipe
key) and at most one incomplete ORGANIZE reminder per item, every class
still has at most one such reminder after any number of consecutive
passes, under any failure injection. -/
theorem C1_sync_preserves_uniqueness (env : SyncEnv) (store : Store) (N : Nat)
    (sid : Nat) (tok : Str)
    (hupd : updIncompleteCount store.tasks sid tok ≤ 1)
    (horg : orgIncompleteCount store.tasks sid ≤ 1) :
    updIncompleteCount (syncAllIter env store N).tasks sid tok ≤ 1 ∧
    orgIncompleteCount (syncAllIter env store N).tasks sid ≤ 1 :=
  ⟨le_trans (iter_updIncomplete_le env N store sid tok) (max_le hupd (le_refl 1)),
   le_trans (iter_orgIncomplete_le env N store sid) (max_le horg (le_refl 1))⟩

theorem C1_sync_preserves_uniqueness_witness :
    updIncompleteCount storeClean.tasks 1 (str "S01E01") ≤ 1 ∧
    orgIncompleteCount storeClean.tasks 1 ≤ 1 ∧
    (updIncompleteCount (syncAllIter envOk storeClean 2).tasks 1 (str "S01E01") ≤ 1 ∧
     orgIncompleteCount (syncAllIter envOk storeClean 2).tasks 1 ≤ 1) :=
  ⟨by decide, by decide,
   C1_sync_preserves_uniqueness envOk storeClean 2 1 (str "S01E01")
     (by decide) (by decide)⟩

/-- C1 counterexample: a store holding two incomplete UPDATE reminders
with the same (item, token) key still holds both after a full pass (N = 1):
the pass never removes duplicates, so the claim's unconditional bound over
every starting store is false. -/
theorem C1_counterexample :
    1 < updIncompleteCount (syncAllIter envOk storeDup 1).tasks 1 (str "S01E01") := by
  decide

/-- The episode pointer that would make the generator want an S01E01
reminder: already aired relative to envOk.today. -/
def epNext : EpisodeInfo where
  airDate := str "2020-01-01"
  episodeNumber := 1
  seasonNumber := 1
  name := str "E"
  overview := str ""

/-- A cached document whose next-episode pointer is due. -/
def detailsDue : TVDetails where
  name := str "A"
  status := str "Returning Series"
  originCountry := [str "US"]
  numberOfSeasons := 0
  nextEpisodeToAir := some epNext
  lastEpisodeToAir := none

/-- A COMPLETED UPDATE reminder with the S01E01 key. -/
def doneTask : Task where
  id := 1
  tvShowID := 1
  taskType := TaskType.update
  description := str "S01E01|新剧集更新: S01E01 - A"
  isCompleted := true
  createdAt := 0

/-- A store whose only S01E01-keyed reminder is completed, while the
cached document reports S01E01 as due. -/
def storeDone : Store where
  shows := [showA]
  episodes := []
  tasks := [doneTask]
  cache := [(7, detailsDue)]
  nextTaskId := 2

/-- C9: the duplicate guard matches reminders regardless of the completed
flag, so as soon as at least one reminder — completed or incomplete, of
any type — carries the token-pipe key of a canonical episode token for an
item, consecutive passes never add another reminder with that key: the
count of key-carrying reminders is exactly preserved by any number of
passes under any failure injection. -/
theorem C9_completed_suppresses (env : SyncEnv) (store : Store) (N : Nat)
    (sid s0 e0 : Nat)
    (hpos : 1 ≤ updTokenCount store.tasks sid (FormatEpisodeID s0 e0)) :
    updTokenCount (syncAllIter env store N).tasks sid (FormatEpisodeID s0 e0) =
      updTokenCount store.tasks sid (FormatEpisodeID s0 e0) :=
  iter_updTokenCount_eq env N store sid s0 e0 hpos

theorem C9_completed_suppresses_witness :
    1 ≤ updTokenCount storeDone.tasks 1 (FormatEpisodeID 1 1) ∧
    updTokenCount (syncAllIter envOk storeDone 3).tasks 1 (FormatEpisodeID 1 1) =
      updTokenCount storeDone.tasks 1 (FormatEpisodeID 1 1) :=
  ⟨by decide, C9_completed_suppresses envOk storeDone 3 1 1 1 (by decide)⟩

end TvTracker
